import Mathlib

/-!
# Irrigation controller: calibration store, calibration engine, moisture conversion, pump

Shallow embedding of `Irrigation_System.X/moisture_calibration.c`,
`Irrigation_System.X/moisture_calibration.h`,
`Irrigation_System.X/moisture_sensor.c` and `Pump_control.c`.

Conventions of the embedding.

* `uint16_t`, `uint8_t` and `uint32_t` values are natural numbers; where a C
  conversion can wrap, the reduction modulo `2^w` is written out.
* The module's file-scope variables (`calibration_ctx`, `calibration_complete`,
  `current_button_state`) are the fields of `CalibrationModule`, passed in and
  returned by every operation.
* The non-volatile memory is a value of an arbitrary type `Flash`.  The plib
  routines `NVMCTRL_RowErase`, `NVMCTRL_PageWrite` and the constant
  `NVMCTRL_FLASH_ROWSIZE` are not part of the sources; they are the fields of
  `NvmModel`, together with the struct-overlay read that `memcpy` performs at
  an address.  The `while (NVMCTRL_IsBusy());` polls are taken to fall through
  (the controller clears its busy flag when an operation is done).
* `printf` output is not modelled.
* One call of `calibration_process` reads the button once at its start and,
  in the two wait states, possibly a second time; a `TickInput` carries both
  readings.
* The `float` values of `Pump_control.c` are rational numbers and their
  arithmetic is exact, except in line 205 of `pump_activate`, whose value is
  converted to an integer: there every operation is rounded to binary32.  The
  values GetTickMs() returns are arguments.
-/

namespace Irrigation

/-! ## moisture_calibration.h -/

/-- The macro CALIBRATION_FLASH_ADDRESS. -/
def CALIBRATION_FLASH_ADDRESS : Nat := 0x00001000

/-- The macro CALIBRATION_MAGIC_NUMBER. -/
def CALIBRATION_MAGIC_NUMBER : Nat := 0xCA11B8A7

/-- The enum CalibrationState. -/
inductive CalibrationState where
  | CALIBRATION_IDLE
  | CALIBRATION_DRY_WAIT
  | CALIBRATION_DRY_RECORD
  | CALIBRATION_WET_WAIT
  | CALIBRATION_WET_RECORD
  | CALIBRATION_COMPLETE
  deriving DecidableEq, Repr

/-- The struct CalibrationContext. -/
structure CalibrationContext where
  current_state : CalibrationState
  dry_calibration_value : Nat
  wet_calibration_value : Nat
  calibration_attempts : Nat
  deriving DecidableEq, Repr

/-- The enum ButtonState. -/
inductive ButtonState where
  | BUTTON_RELEASED
  | BUTTON_PRESSED
  | BUTTON_HANDLED
  deriving DecidableEq, Repr

/-! ## Non-volatile memory -/

/-- The anonymous struct `{uint16_t dry_value; uint16_t wet_value;
uint32_t magic_number;}` that save and load lay over the flash. -/
structure FlashRecord where
  dry_value : Nat
  wet_value : Nat
  magic_number : Nat
  deriving DecidableEq, Repr

/-- The flash controller as the module uses it: the plib constant and
routines, and the read of a record-sized struct at an address. -/
structure NvmModel (Flash : Type) where
  NVMCTRL_FLASH_ROWSIZE : Nat
  NVMCTRL_RowErase : Nat → Flash → Flash
  NVMCTRL_PageWrite : FlashRecord → Nat → Flash → Flash
  memcpy_record : Nat → Flash → FlashRecord

/-- Bitwise complement of a `uint32_t`. -/
def not_u32 (x : Nat) : Nat := 0xFFFFFFFF - x % 4294967296

/-- The local `row_address` of save_calibration_data:
`CALIBRATION_FLASH_ADDRESS & ~(NVMCTRL_FLASH_ROWSIZE - 1)` on `uint32_t`. -/
def row_address {Flash : Type} (nvm : NvmModel Flash) : Nat :=
  CALIBRATION_FLASH_ADDRESS &&&
    not_u32 ((nvm.NVMCTRL_FLASH_ROWSIZE + 4294967296 - 1) % 4294967296)

/-- The local `data_to_save` of save_calibration_data once its three fields
are assigned. -/
def data_to_save (calibration_data : CalibrationContext) : FlashRecord :=
  { dry_value := calibration_data.dry_calibration_value
    wet_value := calibration_data.wet_calibration_value
    magic_number := CALIBRATION_MAGIC_NUMBER }

/-- The function save_calibration_data: erase the row, write the record, read
it back and compare.  Returns the verdict and the flash afterwards. -/
def save_calibration_data {Flash : Type} (nvm : NvmModel Flash)
    (calibration_data : CalibrationContext) (flash : Flash) : Bool × Flash :=
  let erased := nvm.NVMCTRL_RowErase (row_address nvm) flash
  let written :=
    nvm.NVMCTRL_PageWrite (data_to_save calibration_data) CALIBRATION_FLASH_ADDRESS erased
  let verified_data := nvm.memcpy_record CALIBRATION_FLASH_ADDRESS written
  if verified_data.magic_number = CALIBRATION_MAGIC_NUMBER ∧
      verified_data.dry_value = calibration_data.dry_calibration_value ∧
      verified_data.wet_value = calibration_data.wet_calibration_value then
    (true, written)
  else
    (false, written)

/-- The function load_calibration_data: returns the verdict and the context
afterwards; the flash is only read. -/
def load_calibration_data {Flash : Type} (nvm : NvmModel Flash)
    (calibration_data : CalibrationContext) (flash : Flash) : Bool × CalibrationContext :=
  let loaded_data := nvm.memcpy_record CALIBRATION_FLASH_ADDRESS flash
  if loaded_data.magic_number = CALIBRATION_MAGIC_NUMBER then
    (true, { calibration_data with
              dry_calibration_value := loaded_data.dry_value
              wet_calibration_value := loaded_data.wet_value })
  else
    (false, calibration_data)

/-! ## moisture_calibration.c: the engine -/

/-- The file-scope variables of moisture_calibration.c. -/
structure CalibrationModule where
  calibration_ctx : CalibrationContext
  calibration_complete : Bool
  current_button_state : ButtonState
  deriving DecidableEq, Repr

/-- What one call of calibration_process reads from the hardware: `adc` is the
value of ADC_ConversionResultGet(), `button_first` the value of
is_button_pressed() (that is, of SW0_Get()) at the start of the call, and
`button_second` its value when a wait state calls it again. -/
structure TickInput where
  adc : Nat
  button_first : Bool
  button_second : Bool
  deriving DecidableEq, Repr

/-- Return value and effects of one call of calibration_process. -/
structure TickResult (Flash : Type) where
  ret : Bool
  module : CalibrationModule
  flash : Flash

/-- The function calibration_init. -/
def calibration_init {Flash : Type} (nvm : NvmModel Flash) (m : CalibrationModule)
    (flash : Flash) : CalibrationModule :=
  let ctx0 : CalibrationContext :=
    { m.calibration_ctx with
      current_state := .CALIBRATION_DRY_WAIT
      dry_calibration_value := 0
      wet_calibration_value := 0
      calibration_attempts := 0 }
  let loaded := load_calibration_data nvm ctx0 flash
  if loaded.1 then
    { calibration_ctx := { loaded.2 with current_state := .CALIBRATION_COMPLETE }
      calibration_complete := true
      current_button_state := .BUTTON_RELEASED }
  else
    { calibration_ctx := loaded.2
      calibration_complete := false
      current_button_state := .BUTTON_RELEASED }

/-- The prompt step shared by both wait states: a flag that reads
BUTTON_RELEASED becomes BUTTON_PRESSED. -/
def arm_prompt (m : CalibrationModule) : CalibrationModule :=
  if m.current_button_state = .BUTTON_RELEASED then
    { m with current_button_state := .BUTTON_PRESSED }
  else m

/-- The function calibration_process. -/
def calibration_process {Flash : Type} (nvm : NvmModel Flash) (inp : TickInput)
    (m : CalibrationModule) (flash : Flash) : TickResult Flash :=
  let current_adc_value := inp.adc
  let button_currently_pressed := inp.button_first
  match m.calibration_ctx.current_state with
  | .CALIBRATION_DRY_WAIT =>
    let m1 := arm_prompt m
    if button_currently_pressed = true ∧ m1.current_button_state = .BUTTON_PRESSED then
      if inp.button_second = false then
        { ret := false
          module :=
            { m1 with
              calibration_ctx :=
                { m1.calibration_ctx with
                  dry_calibration_value := current_adc_value
                  current_state := .CALIBRATION_WET_WAIT }
              current_button_state := .BUTTON_RELEASED }
          flash := flash }
      else { ret := false, module := m1, flash := flash }
    else { ret := false, module := m1, flash := flash }
  | .CALIBRATION_WET_WAIT =>
    let m1 := arm_prompt m
    if button_currently_pressed = true ∧ m1.current_button_state = .BUTTON_PRESSED then
      if inp.button_second = false then
        { ret := false
          module :=
            { m1 with
              calibration_ctx :=
                { m1.calibration_ctx with
                  wet_calibration_value := current_adc_value
                  current_state := .CALIBRATION_COMPLETE }
              current_button_state := .BUTTON_RELEASED }
          flash := flash }
      else { ret := false, module := m1, flash := flash }
    else { ret := false, module := m1, flash := flash }
  | .CALIBRATION_COMPLETE =>
    if m.calibration_ctx.wet_calibration_value < m.calibration_ctx.dry_calibration_value then
      let saved := save_calibration_data nvm m.calibration_ctx flash
      { ret := true
        module := { m with calibration_complete := true }
        flash := saved.2 }
    else
      { ret := false
        module :=
          { m with
            calibration_ctx :=
              { m.calibration_ctx with current_state := .CALIBRATION_DRY_WAIT }
            calibration_complete := false
            current_button_state := .BUTTON_RELEASED }
        flash := flash }
  | _ =>
    { ret := false
      module :=
        { m with
          calibration_ctx :=
            { m.calibration_ctx with current_state := .CALIBRATION_DRY_WAIT }
          current_button_state := .BUTTON_RELEASED }
      flash := flash }

/-- The function get_calibration_status. -/
def get_calibration_status (m : CalibrationModule) : Bool :=
  m.calibration_complete

/-- The function get_calibration_values, with both out-pointers non-null. -/
def get_calibration_values (m : CalibrationModule) : Nat × Nat :=
  (m.calibration_ctx.dry_calibration_value, m.calibration_ctx.wet_calibration_value)

/-- Successive calls of calibration_process, one per input, collecting the
return values in call order. -/
def run_ticks {Flash : Type} (nvm : NvmModel Flash) :
    List TickInput → CalibrationModule → Flash → List Bool × CalibrationModule × Flash
  | [], m, flash => ([], m, flash)
  | inp :: rest, m, flash =>
    let r := calibration_process nvm inp m flash
    let later := run_ticks nvm rest r.module r.flash
    (r.ret :: later.1, later.2.1, later.2.2)

/-! ## Storage instances -/

/-- Storage that retains what is written at the calibration address: reading
back after the erase and write of save_calibration_data yields the record. -/
def Retains {Flash : Type} (nvm : NvmModel Flash) : Prop :=
  ∀ (rec : FlashRecord) (flash : Flash),
    nvm.memcpy_record CALIBRATION_FLASH_ADDRESS
      (nvm.NVMCTRL_PageWrite rec CALIBRATION_FLASH_ADDRESS
        (nvm.NVMCTRL_RowErase (row_address nvm) flash)) = rec

/-- Erased flash: every bit reads one. -/
def erased_record : FlashRecord :=
  { dry_value := 0xFFFF, wet_value := 0xFFFF, magic_number := 0xFFFFFFFF }

/-- A working flash seen through the eight bytes at the calibration address:
an erase sets all bits, a write stores the record. -/
def working_nvm : NvmModel FlashRecord :=
  { NVMCTRL_FLASH_ROWSIZE := 256
    NVMCTRL_RowErase := fun _ _ => erased_record
    NVMCTRL_PageWrite := fun rec _ _ => rec
    memcpy_record := fun _ flash => flash }

/-- A flash whose erase works but whose page write has no effect. -/
def stuck_nvm : NvmModel FlashRecord :=
  { NVMCTRL_FLASH_ROWSIZE := 256
    NVMCTRL_RowErase := fun _ _ => erased_record
    NVMCTRL_PageWrite := fun _ _ flash => flash
    memcpy_record := fun _ flash => flash }

/-- A module value before calibration_init has run (zero-initialised statics). -/
def boot_module : CalibrationModule :=
  { calibration_ctx :=
      { current_state := .CALIBRATION_IDLE
        dry_calibration_value := 0
        wet_calibration_value := 0
        calibration_attempts := 0 }
    calibration_complete := false
    current_button_state := .BUTTON_RELEASED }

/-! ## moisture_sensor.h, moisture_sensor.c -/

/-- The enum MoistureSensorState. -/
inductive MoistureSensorState where
  | MOISTURE_STATE_IDLE
  | MOISTURE_STATE_INIT_MEASUREMENT
  | MOISTURE_STATE_WAIT_CONVERSION
  | MOISTURE_STATE_PROCESS_DATA
  | MOISTURE_STATE_SEND_UART
  | MOISTURE_STATE_WAIT_TIMER
  deriving DecidableEq, Repr

/-- The struct MoistureSensorContext; the two `char *` fields are the
addresses they hold. -/
structure MoistureSensorContext where
  current_state : MoistureSensorState
  moisture_raw_value : Nat
  moisture_percentage : Nat
  measurement_start_time : Nat
  wait_timer_duration : Nat
  conversion_complete : Bool
  uart_message_buffer : Nat
  display_message_buffer : Nat
  deriving DecidableEq, Repr

/-- Range test for the 32-bit `int` of the target. -/
def in_int_range (x : Int) : Bool :=
  decide (-2147483648 ≤ x ∧ x ≤ 2147483647)

/-- C `int` subtraction; `none` when the result overflows (undefined). -/
def int_sub (a b : Int) : Option Int :=
  if in_int_range (a - b) then some (a - b) else none

/-- C `int` multiplication; `none` when the result overflows (undefined). -/
def int_mul (a b : Int) : Option Int :=
  if in_int_range (a * b) then some (a * b) else none

/-- C `int` division, truncating toward zero; `none` for a zero divisor or an
overflowing quotient (both undefined). -/
def int_div (a b : Int) : Option Int :=
  if b = 0 then none
  else if in_int_range (Int.tdiv a b) then some (Int.tdiv a b) else none

/-- Conversion of an `int` to `uint16_t`: reduction modulo 2^16. -/
def to_uint16 (x : Int) : Nat := (x % 65536).toNat

/-- The function moisture_sensor_calibrate.  The `uint16_t` operands of the
interpolation are promoted to `int`; the quotient is converted back to
`uint16_t` on assignment.  `none` stands for undefined behaviour in the
arithmetic. -/
def moisture_sensor_calibrate (context : MoistureSensorContext)
    (dry_calibration_value wet_calibration_value : Nat) : Option MoistureSensorContext :=
  if context.moisture_raw_value ≥ dry_calibration_value then
    some { context with moisture_percentage := 0 }
  else if context.moisture_raw_value ≤ wet_calibration_value then
    some { context with moisture_percentage := 100 }
  else do
    let diff ← int_sub (context.moisture_raw_value : Int) (dry_calibration_value : Int)
    let scaled ← int_mul diff 100
    let span ← int_sub (wet_calibration_value : Int) (dry_calibration_value : Int)
    let quotient ← int_div scaled span
    some { context with moisture_percentage := to_uint16 quotient }

/-- A sensor context holding a given raw sample, otherwise as
moisture_sensor_state_machine_init leaves it. -/
def sample_context (raw : Nat) : MoistureSensorContext :=
  { current_state := .MOISTURE_STATE_PROCESS_DATA
    moisture_raw_value := raw
    moisture_percentage := 0
    measurement_start_time := 0
    wait_timer_duration := 300
    conversion_complete := false
    uart_message_buffer := 0
    display_message_buffer := 0 }

/-! ## Pump_control.c

The `float` values of this file are rational numbers: every operation on them
is exact, except in the computation of the compare value (line 205), whose
result is converted to an integer and where each operation is rounded to
binary32 as on the target.  Each call of the external GetTickMs() is an argument of the function
that makes it.  The TCC compare register that tcc_set_compare_value() writes is
the field `tcc_compare_value` of the module state. -/

/-- The macro PUMP_PWM_PERIOD. -/
def PUMP_PWM_PERIOD : Nat := 1199

/-- The struct PumpCalibrationPoint. -/
structure PumpCalibrationPoint where
  duty_cycle_percent : ℚ
  flow_rate_ml_per_sec : ℚ
  deriving DecidableEq

/-- The macro NUM_CALIBRATION_POINTS. -/
def NUM_CALIBRATION_POINTS : Nat := 5

/-- The array calibration_table. -/
def calibration_table : List PumpCalibrationPoint :=
  [ { duty_cycle_percent := 20.0, flow_rate_ml_per_sec := 0.8 },
    { duty_cycle_percent := 40.0, flow_rate_ml_per_sec := 1.9 },
    { duty_cycle_percent := 60.0, flow_rate_ml_per_sec := 3.1 },
    { duty_cycle_percent := 80.0, flow_rate_ml_per_sec := 4.5 },
    { duty_cycle_percent := 100.0, flow_rate_ml_per_sec := 5.8 } ]

/-- The interpolation inside the loop of get_flow_rate_ml_per_sec, between the
points (d1, r1) and (d2, r2). -/
def interpolate (p1 p2 : PumpCalibrationPoint) (duty_cycle_percent : ℚ) : ℚ :=
  let d1 := p1.duty_cycle_percent
  let r1 := p1.flow_rate_ml_per_sec
  let d2 := p2.duty_cycle_percent
  let r2 := p2.flow_rate_ml_per_sec
  if |d2 - d1| < 0.01 then r1
  else r1 + ((duty_cycle_percent - d1) * (r2 - r1)) / (d2 - d1)

/-- The `for` loop of get_flow_rate_ml_per_sec over the pairs
(table[i], table[i+1]), i = 0 .. N-2, in order; `none` when the loop ends
without a return. -/
def scan_table : List PumpCalibrationPoint → ℚ → Option ℚ
  | p1 :: p2 :: rest, duty_cycle_percent =>
    if duty_cycle_percent ≥ p1.duty_cycle_percent ∧
        duty_cycle_percent ≤ p2.duty_cycle_percent then
      some (interpolate p1 p2 duty_cycle_percent)
    else scan_table (p2 :: rest) duty_cycle_percent
  | _, _ => none

/-- The body of get_flow_rate_ml_per_sec over a given calibration table
(table[0] is the head, table[N-1] the last element; a table must have a point,
the filler (0, 0) stands in for the elements of an empty one). -/
def flow_rate_of_table (table : List PumpCalibrationPoint) (duty_cycle_percent : ℚ) : ℚ :=
  let first := table.headD ⟨0, 0⟩
  let last := table.getLastD ⟨0, 0⟩
  if duty_cycle_percent ≤ first.duty_cycle_percent then
    if first.duty_cycle_percent > 0.01 then
      first.flow_rate_ml_per_sec * (duty_cycle_percent / first.duty_cycle_percent)
    else 0
  else if duty_cycle_percent ≥ last.duty_cycle_percent then
    last.flow_rate_ml_per_sec
  else
    match scan_table table duty_cycle_percent with
    | some flow => flow
    | none => last.flow_rate_ml_per_sec

/-- The function get_flow_rate_ml_per_sec. -/
def get_flow_rate_ml_per_sec (duty_cycle_percent : ℚ) : ℚ :=
  flow_rate_of_table calibration_table duty_cycle_percent

/-- The file-scope variables of Pump_control.c and the TCC compare register. -/
structure PumpModule where
  pump_is_active : Bool
  current_pump_cc_value : Nat
  total_volume_dispensed_ml : ℚ
  pump_run_start_ms : Nat
  is_tracking_pump_run : Bool
  tcc_compare_value : Nat
  deriving DecidableEq

/-- The function get_current_duty_percentage. -/
def get_current_duty_percentage (s : PumpModule) : ℚ :=
  if PUMP_PWM_PERIOD + 1 = 0 then 0
  else ((s.current_pump_cc_value : ℚ) * 100) / ((PUMP_PWM_PERIOD + 1 : Nat) : ℚ)

/-- The elapsed-time computation that pump_stop_tracking and
pump_get_total_volume_ml both contain, on `uint32_t`: every subtraction and
addition is reduced modulo 2^32. -/
def elapsed_ms_between (pump_run_start_ms end_ms : Nat) : Nat :=
  if end_ms ≥ pump_run_start_ms then
    (end_ms + 4294967296 - pump_run_start_ms) % 4294967296
  else
    (((0xFFFFFFFF + 4294967296 - pump_run_start_ms) % 4294967296 + end_ms) % 4294967296 + 1)
      % 4294967296

/-- The function pump_start_tracking; `tick` is the value of GetTickMs(). -/
def pump_start_tracking (tick : Nat) (s : PumpModule) : PumpModule :=
  if s.pump_is_active = true ∧ s.is_tracking_pump_run = false then
    { s with pump_run_start_ms := tick, is_tracking_pump_run := true }
  else s

/-- The function pump_stop_tracking; `end_ms` is the value of GetTickMs(). -/
def pump_stop_tracking (end_ms : Nat) (s : PumpModule) : PumpModule :=
  if s.is_tracking_pump_run = true then
    let elapsed_ms := elapsed_ms_between s.pump_run_start_ms end_ms
    let elapsed_seconds : ℚ := (elapsed_ms : ℚ) / 1000
    let active_duty_percent := get_current_duty_percentage s
    let flow_rate := get_flow_rate_ml_per_sec active_duty_percent
    let volume_interval_ml := flow_rate * elapsed_seconds
    { s with
      total_volume_dispensed_ml := s.total_volume_dispensed_ml + volume_interval_ml
      is_tracking_pump_run := false }
  else s

/-- The function pump_init. -/
def pump_init (s : PumpModule) : PumpModule :=
  { s with
    tcc_compare_value := 0
    pump_is_active := false
    current_pump_cc_value := 0
    total_volume_dispensed_ml := 0
    is_tracking_pump_run := false }

/-- Conversion of a `float` to `uint32_t`: the fraction is discarded.  The
numerator of a value below zero counts as zero: such a value converts to 0 when
it is above -1 and has no defined conversion otherwise. -/
def float_to_uint32 (x : ℚ) : Nat := x.num.toNat / x.den

/-- Rounding to the nearest integer, a tie going to the even neighbour. -/
def round_half_even (x : ℚ) : ℤ :=
  let f := ⌊x⌋
  let r := x - (f : ℚ)
  if r < 1 / 2 then f
  else if r > 1 / 2 then f + 1
  else if f % 2 = 0 then f
  else f + 1

/-- Exponent of the binary32 unit in the last place at the magnitude of x:
24 significant bits, and -149 throughout the subnormal range. -/
def binary32_quantum (x : ℚ) : ℤ := max (Int.log 2 |x| - 23) (-149)

/-- The binary32 value nearest to x, a tie going to the even significand: the
rounding of every `float` operation on the target.  Magnitudes beyond the
largest finite binary32 number are not treated. -/
def binary32 (x : ℚ) : ℚ :=
  (round_half_even (x / 2 ^ binary32_quantum x) : ℚ) * 2 ^ binary32_quantum x

/-- The local `new_cc_value` of pump_activate once the clamps are done
(lines 199 to 214).  The value of line 205 becomes an integer, so each `float`
operation of that line is rounded to binary32 here; 0.5f, 100.0f and
(float)(PUMP_PWM_PERIOD + 1) are binary32 numbers, 99.99f is the binary32
number nearest to 99.99.  The argument is the value of the `float` parameter:
on a binary32 number the result is the one of the target. -/
def new_cc_value (percentage : ℚ) : Nat :=
  let percentage := if percentage < 0 then 0 else percentage
  let percentage := if percentage > 100 then 100 else percentage
  let cc := float_to_uint32
    (binary32 (binary32 (binary32 (percentage / 100) * ((PUMP_PWM_PERIOD + 1 : Nat) : ℚ)) + 0.5))
  let cc := if cc > PUMP_PWM_PERIOD then PUMP_PWM_PERIOD else cc
  if percentage ≥ binary32 99.99 ∧ cc < PUMP_PWM_PERIOD then PUMP_PWM_PERIOD else cc

/-- The function pump_activate.  `tick_stop` is the value GetTickMs() returns
inside pump_stop_tracking (at most one of the two calls of pump_stop_tracking
runs its body), `tick_start` the value it returns inside pump_start_tracking. -/
def pump_activate (percentage : ℚ) (tick_stop tick_start : Nat) (s : PumpModule) :
    PumpModule :=
  let new_cc := new_cc_value percentage
  let s1 :=
    if s.is_tracking_pump_run = true ∧ new_cc ≠ s.current_pump_cc_value then
      pump_stop_tracking tick_stop s
    else s
  let old_cc_value := s1.current_pump_cc_value
  let s2 := { s1 with tcc_compare_value := new_cc, current_pump_cc_value := new_cc }
  if new_cc > 0 then
    let needs_tracking_start := !s2.pump_is_active
    let s3 := { s2 with pump_is_active := true }
    if needs_tracking_start = true ∨
        (old_cc_value ≠ new_cc ∧ s3.is_tracking_pump_run = false) then
      pump_start_tracking tick_start s3
    else s3
  else
    let s3 :=
      if s2.pump_is_active = true then
        let s2a := if s2.is_tracking_pump_run = true then pump_stop_tracking tick_stop s2 else s2
        { s2a with pump_is_active := false }
      else s2
    { s3 with is_tracking_pump_run := false }

/-- The function pump_deactivate. -/
def pump_deactivate (tick_stop tick_start : Nat) (s : PumpModule) : PumpModule :=
  pump_activate 0 tick_stop tick_start s

/-- The function pump_adjust_flow. -/
def pump_adjust_flow (percentage : ℚ) (tick_stop tick_start : Nat) (s : PumpModule) :
    PumpModule :=
  pump_activate percentage tick_stop tick_start s

/-- The function pump_get_status. -/
def pump_get_status (s : PumpModule) : Bool := s.pump_is_active

/-- The function pump_get_total_volume_ml; `current_ms` is the value of
GetTickMs().  It assigns to no file-scope variable, so it returns the value
alone. -/
def pump_get_total_volume_ml (current_ms : Nat) (s : PumpModule) : ℚ :=
  let current_interval_volume : ℚ :=
    if s.is_tracking_pump_run = true then
      let elapsed_ms := elapsed_ms_between s.pump_run_start_ms current_ms
      let elapsed_seconds : ℚ := (elapsed_ms : ℚ) / 1000
      let active_duty_percent := get_current_duty_percentage s
      let flow_rate := get_flow_rate_ml_per_sec active_duty_percent
      flow_rate * elapsed_seconds
    else 0
  s.total_volume_dispensed_ml + current_interval_volume

/-- The function pump_reset_total_volume. -/
def pump_reset_total_volume (tick_stop tick_start : Nat) (s : PumpModule) : PumpModule :=
  let s1 :=
    if s.is_tracking_pump_run = true then
      pump_start_tracking tick_start (pump_stop_tracking tick_stop s)
    else s
  { s1 with total_volume_dispensed_ml := 0 }

/-- A call of the public interface of Pump_control.c after pump_init, with
its argument and the clock values it reads. -/
inductive PumpCall where
  | activate (percentage : ℚ) (tick_stop tick_start : Nat)
  | deactivate (tick_stop tick_start : Nat)
  | adjust_flow (percentage : ℚ) (tick_stop tick_start : Nat)
  | reset_total_volume (tick_stop tick_start : Nat)
  | get_total_volume_ml (current_ms : Nat)

/-- The effect of one public call on the module state. -/
def pump_call : PumpCall → PumpModule → PumpModule
  | .activate p ts tb, s => pump_activate p ts tb s
  | .deactivate ts tb, s => pump_deactivate ts tb s
  | .adjust_flow p ts tb, s => pump_adjust_flow p ts tb s
  | .reset_total_volume ts tb, s => pump_reset_total_volume ts tb s
  | .get_total_volume_ml _, s => s

/-- The state after a sequence of public calls, first call first. -/
def pump_calls : List PumpCall → PumpModule → PumpModule
  | [], s => s
  | c :: rest, s => pump_calls rest (pump_call c s)

/-- Module state before pump_init has run (zero-initialised statics). -/
def pump_boot : PumpModule :=
  { pump_is_active := false
    current_pump_cc_value := 0
    total_volume_dispensed_ml := 0
    pump_run_start_ms := 0
    is_tracking_pump_run := false
    tcc_compare_value := 0 }

/-- A calibration table in ascending order: the duty and the flow rate of each
point are at most those of the next point. -/
def table_ascending : List PumpCalibrationPoint → Prop
  | p1 :: p2 :: rest =>
    p1.duty_cycle_percent ≤ p2.duty_cycle_percent ∧
    p1.flow_rate_ml_per_sec ≤ p2.flow_rate_ml_per_sec ∧
    table_ascending (p2 :: rest)
  | _ => True

/-- The relation between the three status variables that holds between calls:
an interval is open exactly when the pump is active, and the pump is active
exactly when the stored compare value is above zero. -/
def PumpConsistent (s : PumpModule) : Prop :=
  s.is_tracking_pump_run = s.pump_is_active ∧
  (s.pump_is_active = true ↔ s.current_pump_cc_value > 0)

/-! ## Invariants of the calibration engine -/

/-- The prompt flag holds BUTTON_RELEASED or BUTTON_PRESSED, and the completion
flag is set only in CALIBRATION_COMPLETE. -/
def EngineConsistent (m : CalibrationModule) : Prop :=
  m.current_button_state ≠ .BUTTON_HANDLED ∧
  (m.calibration_complete = true →
    m.calibration_ctx.current_state = .CALIBRATION_COMPLETE)

/-- The completion flag is set only in CALIBRATION_COMPLETE with wet < dry. -/
def StatusValid (m : CalibrationModule) : Prop :=
  m.calibration_complete = true →
    m.calibration_ctx.current_state = .CALIBRATION_COMPLETE ∧
    m.calibration_ctx.wet_calibration_value < m.calibration_ctx.dry_calibration_value

/-! ## Helper lemmas -/

theorem retains_working_nvm : Retains working_nvm := by
  intro rec flash
  rfl

theorem calibration_init_fresh {Flash : Type} (nvm : NvmModel Flash) (boot : CalibrationModule)
    (flash : Flash)
    (hfresh : (nvm.memcpy_record CALIBRATION_FLASH_ADDRESS flash).magic_number
      ≠ CALIBRATION_MAGIC_NUMBER) :
    calibration_init nvm boot flash =
      { calibration_ctx :=
          { current_state := .CALIBRATION_DRY_WAIT
            dry_calibration_value := 0
            wet_calibration_value := 0
            calibration_attempts := 0 }
        calibration_complete := false
        current_button_state := .BUTTON_RELEASED } := by
  simp [calibration_init, load_calibration_data, hfresh]

theorem calibration_init_stored {Flash : Type} (nvm : NvmModel Flash) (boot : CalibrationModule)
    (flash : Flash)
    (hvalid : (nvm.memcpy_record CALIBRATION_FLASH_ADDRESS flash).magic_number
      = CALIBRATION_MAGIC_NUMBER) :
    calibration_init nvm boot flash =
      { calibration_ctx :=
          { current_state := .CALIBRATION_COMPLETE
            dry_calibration_value :=
              (nvm.memcpy_record CALIBRATION_FLASH_ADDRESS flash).dry_value
            wet_calibration_value :=
              (nvm.memcpy_record CALIBRATION_FLASH_ADDRESS flash).wet_value
            calibration_attempts := 0 }
        calibration_complete := true
        current_button_state := .BUTTON_RELEASED } := by
  simp [calibration_init, load_calibration_data, hvalid]

theorem save_flash_eq {Flash : Type} (nvm : NvmModel Flash) (ctx : CalibrationContext)
    (flash : Flash) :
    (save_calibration_data nvm ctx flash).2 =
      nvm.NVMCTRL_PageWrite (data_to_save ctx) CALIBRATION_FLASH_ADDRESS
        (nvm.NVMCTRL_RowErase (row_address nvm) flash) := by
  simp only [save_calibration_data]
  split <;> rfl

theorem save_retained {Flash : Type} (nvm : NvmModel Flash) (hret : Retains nvm)
    (ctx : CalibrationContext) (flash : Flash) :
    (save_calibration_data nvm ctx flash).1 = true ∧
    nvm.memcpy_record CALIBRATION_FLASH_ADDRESS (save_calibration_data nvm ctx flash).2
      = data_to_save ctx := by
  have h := hret (data_to_save ctx) flash
  refine ⟨?_, by rw [save_flash_eq, h]⟩
  simp only [save_calibration_data, h]
  simp [data_to_save]

theorem level_tick_keeps_ctx {Flash : Type} (nvm : NvmModel Flash) (m : CalibrationModule)
    (flash : Flash) (adc : Nat) (level : Bool)
    (hwait : m.calibration_ctx.current_state = .CALIBRATION_DRY_WAIT ∨
      m.calibration_ctx.current_state = .CALIBRATION_WET_WAIT) :
    (calibration_process nvm ⟨adc, level, level⟩ m flash).module.calibration_ctx
      = m.calibration_ctx := by
  rcases hwait with h | h <;> cases level <;>
    simp [calibration_process, h, arm_prompt] <;> split <;> simp

theorem complete_valid_step {Flash : Type} (nvm : NvmModel Flash) (inp : TickInput)
    (m : CalibrationModule) (flash : Flash)
    (hstate : m.calibration_ctx.current_state = .CALIBRATION_COMPLETE)
    (hvalid : m.calibration_ctx.wet_calibration_value
      < m.calibration_ctx.dry_calibration_value) :
    calibration_process nvm inp m flash =
      { ret := true
        module := { m with calibration_complete := true }
        flash := (save_calibration_data nvm m.calibration_ctx flash).2 } := by
  simp [calibration_process, hstate, hvalid]

theorem complete_invalid_step {Flash : Type} (nvm : NvmModel Flash) (inp : TickInput)
    (m : CalibrationModule) (flash : Flash)
    (hstate : m.calibration_ctx.current_state = .CALIBRATION_COMPLETE)
    (hinvalid : m.calibration_ctx.dry_calibration_value
      ≤ m.calibration_ctx.wet_calibration_value) :
    calibration_process nvm inp m flash =
      { ret := false
        module :=
          { m with
            calibration_ctx :=
              { m.calibration_ctx with current_state := .CALIBRATION_DRY_WAIT }
            calibration_complete := false
            current_button_state := .BUTTON_RELEASED }
        flash := flash } := by
  simp [calibration_process, hstate, Nat.not_lt.mpr hinvalid]

theorem run_ticks_complete_valid {Flash : Type} (nvm : NvmModel Flash)
    (inputs : List TickInput) :
    ∀ (m : CalibrationModule) (flash : Flash),
      m.calibration_ctx.current_state = .CALIBRATION_COMPLETE →
      m.calibration_ctx.wet_calibration_value < m.calibration_ctx.dry_calibration_value →
      (run_ticks nvm inputs m flash).1 = List.replicate inputs.length true ∧
      (run_ticks nvm inputs m flash).2.1.calibration_ctx = m.calibration_ctx ∧
      (inputs ≠ [] → (run_ticks nvm inputs m flash).2.1.calibration_complete = true) := by
  induction inputs with
  | nil => intro m flash _ _; simp [run_ticks]
  | cons inp rest ih =>
    intro m flash hstate hvalid
    have hstep := complete_valid_step nvm inp m flash hstate hvalid
    have hrec := ih { m with calibration_complete := true }
      (save_calibration_data nvm m.calibration_ctx flash).2 hstate hvalid
    simp only [run_ticks, hstep, List.length_cons, List.replicate_succ]
    refine ⟨by rw [hrec.1], hrec.2.1, fun _ => ?_⟩
    cases rest with
    | nil => simp [run_ticks]
    | cons a l => exact hrec.2.2 (by simp)

theorem interpolation_quotient (raw dry wet : Nat) (hlo : wet < raw) (hhi : raw < dry) :
    Int.tdiv (((raw : Int) - (dry : Int)) * 100) ((wet : Int) - (dry : Int))
      = (((dry - raw) * 100 / (dry - wet) : Nat) : Int) := by
  have e1 : ((raw : Int) - (dry : Int)) * 100 = -(((dry - raw) * 100 : Nat) : Int) := by
    omega
  have e2 : (wet : Int) - (dry : Int) = -((dry - wet : Nat) : Int) := by
    omega
  rw [e1, e2, Int.neg_tdiv_neg, ← Int.ofNat_tdiv]

theorem interpolation_bound (raw dry wet : Nat) (hlo : wet < raw) (hhi : raw < dry) :
    (dry - raw) * 100 / (dry - wet) ≤ 99 := by
  have hpos : 0 < dry - wet := by omega
  have hlt : (dry - raw) * 100 / (dry - wet) < 100 := by
    rw [Nat.div_lt_iff_lt_mul hpos]
    omega
  omega

theorem calibrate_interpolation (context : MoistureSensorContext) (dry wet : Nat)
    (hdry : dry < 65536) (hlo : wet < context.moisture_raw_value)
    (hhi : context.moisture_raw_value < dry) :
    moisture_sensor_calibrate context dry wet =
      some { context with
        moisture_percentage := (dry - context.moisture_raw_value) * 100 / (dry - wet) } := by
  have hq := interpolation_quotient context.moisture_raw_value dry wet hlo hhi
  have hb := interpolation_bound context.moisture_raw_value dry wet hlo hhi
  have h1 : int_sub (context.moisture_raw_value : Int) (dry : Int)
      = some ((context.moisture_raw_value : Int) - (dry : Int)) := by
    simp only [int_sub, in_int_range]
    rw [if_pos]
    simp only [decide_eq_true_eq]
    omega
  have h2 : int_mul ((context.moisture_raw_value : Int) - (dry : Int)) 100
      = some (((context.moisture_raw_value : Int) - (dry : Int)) * 100) := by
    simp only [int_mul, in_int_range]
    rw [if_pos]
    simp only [decide_eq_true_eq]
    omega
  have h3 : int_sub (wet : Int) (dry : Int) = some ((wet : Int) - (dry : Int)) := by
    simp only [int_sub, in_int_range]
    rw [if_pos]
    simp only [decide_eq_true_eq]
    omega
  have h4 : int_div (((context.moisture_raw_value : Int) - (dry : Int)) * 100)
      ((wet : Int) - (dry : Int))
      = some ((((dry - context.moisture_raw_value) * 100 / (dry - wet) : Nat) : Int)) := by
    simp only [int_div, in_int_range]
    rw [if_neg (by omega), hq, if_pos]
    simp only [decide_eq_true_eq]
    generalize (dry - context.moisture_raw_value) * 100 / (dry - wet) = q at hb
    omega
  have h5 : to_uint16 ((((dry - context.moisture_raw_value) * 100 / (dry - wet) : Nat) : Int))
      = (dry - context.moisture_raw_value) * 100 / (dry - wet) := by
    simp only [to_uint16]
    generalize (dry - context.moisture_raw_value) * 100 / (dry - wet) = q at hb
    omega
  simp only [moisture_sensor_calibrate]
  rw [if_neg (by omega), if_neg (by omega)]
  simp only [h1, h2, h3, h4, h5, Option.bind_eq_bind, Option.some_bind, bind]

theorem float_to_uint32_eq_floor (x : ℚ) : float_to_uint32 x = ⌊x⌋₊ := by
  unfold float_to_uint32
  rw [← Int.floor_toNat, Rat.floor_def]
  rcases Int.lt_or_le x.num 0 with hneg | hpos
  · have h1 : x.num.toNat = 0 := Int.toNat_eq_zero.mpr hneg.le
    have h2 : x.num / (x.den : ℤ) < 0 :=
      Int.ediv_neg' hneg (by exact_mod_cast x.den_pos)
    rw [h1, Int.toNat_eq_zero.mpr h2.le, Nat.zero_div]
  · obtain ⟨n, hn⟩ := Int.eq_ofNat_of_zero_le hpos
    rw [hn]
    simp only [Int.toNat_ofNat]
    rw [← Int.ofNat_ediv, Int.toNat_ofNat]

theorem clamp_percentage (p : ℚ) :
    (if (if p < 0 then 0 else p) > 100 then 100 else (if p < 0 then 0 else p))
      = max 0 (min p 100) := by
  by_cases h0 : p < 0
  · rw [if_pos h0, if_neg (by norm_num), min_eq_left (by linarith), max_eq_left h0.le]
  · rw [if_neg h0]
    push_neg at h0
    by_cases h1 : p > 100
    · rw [if_pos h1, min_eq_right h1.le, max_eq_right (by norm_num)]
    · rw [if_neg h1]
      push_neg at h1
      rw [min_eq_left h1, max_eq_right h0]

theorem round_half_even_error (x : ℚ) : |((round_half_even x : ℤ) : ℚ) - x| ≤ 1 / 2 := by
  have h1 : (⌊x⌋ : ℚ) ≤ x := Int.floor_le x
  have h2 : x < (⌊x⌋ : ℚ) + 1 := Int.lt_floor_add_one x
  unfold round_half_even
  simp only []
  rw [abs_le]
  split_ifs with ha hb hc
  · constructor <;> linarith
  · push_cast
    constructor <;> linarith
  · constructor <;> linarith
  · push_cast
    constructor <;> linarith

theorem round_half_even_int (m : ℤ) : round_half_even (m : ℚ) = m := by
  unfold round_half_even
  simp

theorem binary32_quantum_of_binade (x : ℚ) (e : ℤ) (hlo : (2 : ℚ) ^ e ≤ |x|)
    (hhi : |x| < (2 : ℚ) ^ (e + 1)) (hnorm : -126 ≤ e) : binary32_quantum x = e - 23 := by
  have hpos : 0 < |x| := lt_of_lt_of_le (zpow_pos (by norm_num) e) hlo
  have h1 : e ≤ Int.log 2 |x| := by
    rw [← Int.zpow_le_iff_le_log (by norm_num) hpos]
    exact_mod_cast hlo
  have h2 : Int.log 2 |x| < e + 1 := by
    rw [← Int.lt_zpow_iff_log_lt (by norm_num) hpos]
    exact_mod_cast hhi
  unfold binary32_quantum
  have : Int.log 2 |x| = e := by omega
  rw [this]
  omega

/-- A value m * 2^(e - 23) with 2^e <= |value| < 2^(e + 1) in the normal range
is a binary32 number: rounding leaves it as it is. -/
theorem binary32_exact (x : ℚ) (e m : ℤ) (hlo : (2 : ℚ) ^ e ≤ |x|)
    (hhi : |x| < (2 : ℚ) ^ (e + 1)) (hnorm : -126 ≤ e)
    (hm : x = (m : ℚ) * (2 : ℚ) ^ (e - 23)) : binary32 x = x := by
  have hq := binary32_quantum_of_binade x e hlo hhi hnorm
  unfold binary32
  rw [hq]
  have hne : (2 : ℚ) ^ (e - 23) ≠ 0 := zpow_ne_zero _ (by norm_num)
  have hdiv : x / (2 : ℚ) ^ (e - 23) = (m : ℚ) := by
    rw [hm]
    field_simp
  rw [hdiv, round_half_even_int, ← hm]

theorem binary32_zero : binary32 0 = 0 := by
  unfold binary32
  simp [round_half_even]

theorem binary32_error (x : ℚ) :
    |binary32 x - x| ≤ |x| / 2 ^ 24 + 1 / 2 ^ 150 := by
  by_cases hx : x = 0
  · rw [hx, binary32_zero]
    norm_num
  have hpos : 0 < |x| := abs_pos.mpr hx
  have hq : (0 : ℚ) < (2 : ℚ) ^ binary32_quantum x := zpow_pos (by norm_num) _
  have hround := round_half_even_error (x / (2 : ℚ) ^ binary32_quantum x)
  have hdiff : binary32 x - x
      = (((round_half_even (x / (2 : ℚ) ^ binary32_quantum x) : ℤ) : ℚ)
          - x / (2 : ℚ) ^ binary32_quantum x) * (2 : ℚ) ^ binary32_quantum x := by
    unfold binary32
    field_simp
  have hbound : |binary32 x - x| ≤ 1 / 2 * (2 : ℚ) ^ binary32_quantum x := by
    rw [hdiff, abs_mul, abs_of_pos hq]
    exact mul_le_mul_of_nonneg_right hround hq.le
  have hlog : ((2 : ℕ) : ℚ) ^ Int.log 2 |x| ≤ |x| := Int.zpow_log_le_self (by norm_num) hpos
  have hlog' : (2 : ℚ) ^ Int.log 2 |x| ≤ |x| := by exact_mod_cast hlog
  have hquant : (2 : ℚ) ^ binary32_quantum x
      ≤ (2 : ℚ) ^ (Int.log 2 |x| - 23) + (2 : ℚ) ^ (-149 : ℤ) := by
    unfold binary32_quantum
    rcases max_cases (Int.log 2 |x| - 23) (-149) with ⟨h, _⟩ | ⟨h, _⟩
    · rw [h]
      have : (0 : ℚ) < (2 : ℚ) ^ (-149 : ℤ) := zpow_pos (by norm_num) _
      linarith
    · rw [h]
      have : (0 : ℚ) < (2 : ℚ) ^ (Int.log 2 |x| - 23) := zpow_pos (by norm_num) _
      linarith
  have hsplit : (2 : ℚ) ^ (Int.log 2 |x| - 23) = (2 : ℚ) ^ Int.log 2 |x| / 2 ^ 23 := by
    rw [zpow_sub₀ (by norm_num : (2 : ℚ) ≠ 0)]
    norm_num
  have hsub : (2 : ℚ) ^ (-149 : ℤ) = 1 / 2 ^ 149 := by
    rw [zpow_neg]
    norm_num
  rw [hsplit, hsub] at hquant
  have hfinal : 1 / 2 * ((2 : ℚ) ^ Int.log 2 |x| / 2 ^ 23 + 1 / 2 ^ 149)
      ≤ |x| / 2 ^ 24 + 1 / 2 ^ 150 := by
    have : (2 : ℚ) ^ Int.log 2 |x| / 2 ^ 23 ≤ |x| / 2 ^ 23 :=
      div_le_div_of_nonneg_right hlog' (by norm_num)
    have e1 : |x| / 2 ^ 24 = 1 / 2 * (|x| / 2 ^ 23) := by ring
    have e2 : (1 : ℚ) / 2 ^ 150 = 1 / 2 * (1 / 2 ^ 149) := by norm_num
    rw [e1, e2]
    linarith
  calc |binary32 x - x| ≤ 1 / 2 * (2 : ℚ) ^ binary32_quantum x := hbound
    _ ≤ 1 / 2 * ((2 : ℚ) ^ Int.log 2 |x| / 2 ^ 23 + 1 / 2 ^ 149) := by linarith
    _ ≤ |x| / 2 ^ 24 + 1 / 2 ^ 150 := hfinal

theorem binary32_half : binary32 (1 / 2) = 1 / 2 :=
  binary32_exact (1 / 2) (-1) (2 ^ 23) (by rw [abs_of_pos] <;> norm_num)
    (by rw [abs_of_pos] <;> norm_num) (by norm_num) (by norm_num)

theorem binary32_one : binary32 1 = 1 :=
  binary32_exact 1 0 (2 ^ 23) (by norm_num) (by norm_num) (by norm_num) (by norm_num)

theorem binary32_1200 : binary32 1200 = 1200 :=
  binary32_exact 1200 10 9830400 (by norm_num) (by norm_num) (by norm_num) (by norm_num)

theorem binary32_1200_half : binary32 (1200 + 1 / 2) = 1200 + 1 / 2 :=
  binary32_exact (1200 + 1 / 2) 10 9834496 (by rw [abs_of_pos] <;> norm_num)
    (by rw [abs_of_pos] <;> norm_num) (by norm_num) (by norm_num)

theorem binary32_threshold : 999 / 10 ≤ binary32 99.99 ∧ 0 < binary32 99.99 := by
  have h := binary32_error 99.99
  rw [abs_le] at h
  have habs : |(99.99 : ℚ)| = 99.99 := abs_of_pos (by norm_num)
  rw [habs] at h
  norm_num at h
  constructor <;> linarith [h.1]

/-- The three roundings of line 205 move the value by at most 1/2000. -/
theorem compare_chain_bound (c : ℚ) (h0 : 0 ≤ c) (h100 : c ≤ 100) :
    |binary32 (binary32 (binary32 (c / 100) * 1200) + 1 / 2) - (c / 100 * 1200 + 1 / 2)|
      ≤ 1 / 2000 := by
  have e1 := binary32_error (c / 100)
  have e2 := binary32_error (binary32 (c / 100) * 1200)
  have e3 := binary32_error (binary32 (binary32 (c / 100) * 1200) + 1 / 2)
  have hc : |c / 100| ≤ 1 := by
    rw [abs_of_nonneg (by positivity)]
    linarith
  have hsmall : (1 : ℚ) / 2 ^ 150 ≤ 1 / 2 ^ 24 := by norm_num
  have b1 : |binary32 (c / 100) - c / 100| ≤ 2 / 2 ^ 24 := by
    have : |c / 100| / 2 ^ 24 ≤ 1 / 2 ^ 24 := div_le_div_of_nonneg_right hc (by norm_num)
    linarith
  have a1 : |binary32 (c / 100)| ≤ 2 := by
    have := abs_sub_abs_le_abs_sub (binary32 (c / 100)) (c / 100)
    have : (2 : ℚ) / 2 ^ 24 ≤ 1 := by norm_num
    linarith
  have a2 : |binary32 (c / 100) * 1200| ≤ 2400 := by
    rw [abs_mul]
    have : |(1200 : ℚ)| = 1200 := abs_of_pos (by norm_num)
    rw [this]
    linarith
  have b2 : |binary32 (binary32 (c / 100) * 1200) - binary32 (c / 100) * 1200|
      ≤ 2401 / 2 ^ 24 := by
    have : |binary32 (c / 100) * 1200| / 2 ^ 24 ≤ 2400 / 2 ^ 24 :=
      div_le_div_of_nonneg_right a2 (by norm_num)
    linarith
  have a3 : |binary32 (binary32 (c / 100) * 1200) + 1 / 2| ≤ 2402 := by
    have h1 := abs_sub_abs_le_abs_sub (binary32 (binary32 (c / 100) * 1200))
      (binary32 (c / 100) * 1200)
    have h2 := abs_add (binary32 (binary32 (c / 100) * 1200)) (1 / 2)
    have h3 : |(1 / 2 : ℚ)| = 1 / 2 := abs_of_pos (by norm_num)
    have h4 : (2401 : ℚ) / 2 ^ 24 ≤ 1 := by norm_num
    linarith
  have b3 : |binary32 (binary32 (binary32 (c / 100) * 1200) + 1 / 2)
      - (binary32 (binary32 (c / 100) * 1200) + 1 / 2)| ≤ 2403 / 2 ^ 24 := by
    have : |binary32 (binary32 (c / 100) * 1200) + 1 / 2| / 2 ^ 24 ≤ 2402 / 2 ^ 24 :=
      div_le_div_of_nonneg_right a3 (by norm_num)
    linarith
  rw [abs_le] at b1 b2 b3 ⊢
  have hnum : (2403 : ℚ) / 2 ^ 24 + 2401 / 2 ^ 24 + 1200 * (2 / 2 ^ 24) ≤ 1 / 2000 := by
    norm_num
  constructor <;> linarith [b1.1, b1.2, b2.1, b2.2, b3.1, b3.2]

theorem new_cc_value_floor (p : ℚ) :
    new_cc_value p =
      min ⌊binary32 (binary32 (binary32 (max 0 (min p 100) / 100) * 1200) + 1 / 2)⌋₊ 1199 := by
  unfold new_cc_value
  simp only [clamp_percentage, float_to_uint32_eq_floor, PUMP_PWM_PERIOD]
  have hc0 : (0 : ℚ) ≤ max 0 (min p 100) := le_max_left _ _
  have hc100 : max 0 (min p 100) ≤ (100 : ℚ) := max_le (by norm_num) (min_le_right _ _)
  have hbound := compare_chain_bound (max 0 (min p 100)) hc0 hc100
  have hval : (binary32 (binary32 (max 0 (min p 100) / 100) * ((1199 + 1 : ℕ) : ℚ)) + 0.5)
      = binary32 (binary32 (max 0 (min p 100) / 100) * 1200) + 1 / 2 := by norm_num
  rw [hval]
  generalize max 0 (min p 100) = c at hbound ⊢
  generalize binary32 (binary32 (binary32 (c / 100) * 1200) + 1 / 2) = x3 at hbound ⊢
  have hmin : (if ⌊x3⌋₊ > 1199 then 1199 else ⌊x3⌋₊) = min ⌊x3⌋₊ 1199 := by
    split <;> omega
  rw [hmin]
  split
  · rename_i h
    obtain ⟨h99, hlt⟩ := h
    have hthr := binary32_threshold.1
    rw [abs_le] at hbound
    have hfl : 1199 ≤ ⌊x3⌋₊ := by
      apply Nat.le_floor
      push_cast
      linarith [hbound.1]
    omega
  · rfl

theorem new_cc_value_le (p : ℚ) : new_cc_value p ≤ 1199 := by
  rw [new_cc_value_floor]
  exact min_le_right _ _

theorem new_cc_value_of_nonpos (p : ℚ) (hp : p ≤ 0) : new_cc_value p = 0 := by
  rw [new_cc_value_floor, min_eq_left (by linarith : p ≤ 100), max_eq_left hp]
  have h : binary32 (binary32 (binary32 ((0 : ℚ) / 100) * 1200) + 1 / 2) = 1 / 2 := by
    rw [zero_div, binary32_zero, zero_mul, binary32_zero, zero_add, binary32_half]
  rw [h]
  have hf : ⌊(1 / 2 : ℚ)⌋₊ = 0 := by
    rw [Nat.floor_eq_zero]
    norm_num
  rw [hf]
  rfl

theorem new_cc_value_of_ge_full (p : ℚ) (hp : 100 ≤ p) : new_cc_value p = 1199 := by
  rw [new_cc_value_floor, min_eq_right hp, max_eq_right (by norm_num)]
  have h : binary32 (binary32 (binary32 ((100 : ℚ) / 100) * 1200) + 1 / 2) = 1200 + 1 / 2 := by
    rw [div_self (by norm_num), binary32_one, one_mul, binary32_1200, binary32_1200_half]
  rw [h]
  have hf : ⌊(1200 + 1 / 2 : ℚ)⌋₊ = 1200 := by
    rw [Nat.floor_eq_iff (by norm_num)]
    norm_num
  rw [hf]
  rfl

theorem new_cc_value_zero : new_cc_value 0 = 0 := new_cc_value_of_nonpos 0 (le_refl 0)

theorem new_cc_value_full : new_cc_value 100 = 1199 := new_cc_value_of_ge_full 100 (le_refl _)

theorem new_cc_value_clamp (p : ℚ) : new_cc_value (max 0 (min p 100)) = new_cc_value p := by
  rw [new_cc_value_floor, new_cc_value_floor]
  have h : max 0 (min (max 0 (min p 100)) 100) = max 0 (min p 100) := by
    have h1 : max 0 (min p 100) ≤ 100 := max_le (by norm_num) (min_le_right _ _)
    rw [min_eq_left h1, max_eq_right (le_max_left _ _)]
  rw [h]

/-- Away from a tie the stored value is the exact rounding: when the exact
value of clamp(p) / 100 * 1200 + 1/2 lies in [n + 1/1000, n + 999/1000]. -/
theorem new_cc_value_away_from_tie (p : ℚ) (n : ℕ)
    (hlo : (n : ℚ) + 1 / 1000 ≤ max 0 (min p 100) / 100 * 1200 + 1 / 2)
    (hhi : max 0 (min p 100) / 100 * 1200 + 1 / 2 ≤ (n : ℚ) + 999 / 1000) :
    new_cc_value p = min n 1199 ∧
    ⌊max 0 (min p 100) / 100 * 1200 + 1 / 2⌋₊ = n := by
  have hc0 : (0 : ℚ) ≤ max 0 (min p 100) := le_max_left _ _
  have hc100 : max 0 (min p 100) ≤ (100 : ℚ) := max_le (by norm_num) (min_le_right _ _)
  have hbound := compare_chain_bound (max 0 (min p 100)) hc0 hc100
  rw [abs_le] at hbound
  have hn0 : (0 : ℚ) ≤ n := Nat.cast_nonneg n
  constructor
  · rw [new_cc_value_floor]
    have hf : ⌊binary32 (binary32 (binary32 (max 0 (min p 100) / 100) * 1200) + 1 / 2)⌋₊ = n := by
      rw [Nat.floor_eq_iff (by linarith [hbound.1])]
      constructor <;> linarith [hbound.1, hbound.2]
    rw [hf]
  · rw [Nat.floor_eq_iff (by linarith)]
    constructor <;> linarith

theorem new_cc_value_of_twelfth (d : ℚ) (n : ℕ) (hn : n ≤ 1199) (hd : d * 12 = n) :
    new_cc_value d = n := by
  have hn0 : (0 : ℚ) ≤ n := Nat.cast_nonneg n
  have hn' : (n : ℚ) ≤ 1199 := by exact_mod_cast hn
  have hd0 : 0 ≤ d := by linarith
  have hd100 : d ≤ 100 := by linarith
  have hc : max 0 (min d 100) = d := by
    rw [min_eq_left hd100, max_eq_right hd0]
  have h := (new_cc_value_away_from_tie d n (by rw [hc]; linarith) (by rw [hc]; linarith)).1
  rw [h]
  exact min_eq_left hn

/-- The stored value and the exact rounding differ by at most one. -/
theorem new_cc_value_within_one (p : ℚ) :
    new_cc_value p ≤ min ⌊max 0 (min p 100) / 100 * 1200 + 1 / 2⌋₊ 1199 + 1 ∧
    min ⌊max 0 (min p 100) / 100 * 1200 + 1 / 2⌋₊ 1199 ≤ new_cc_value p + 1 := by
  have hc0 : (0 : ℚ) ≤ max 0 (min p 100) := le_max_left _ _
  have hc100 : max 0 (min p 100) ≤ (100 : ℚ) := max_le (by norm_num) (min_le_right _ _)
  have hbound := compare_chain_bound (max 0 (min p 100)) hc0 hc100
  rw [abs_le] at hbound
  rw [new_cc_value_floor]
  generalize max 0 (min p 100) = c at hbound hc0 ⊢
  generalize binary32 (binary32 (binary32 (c / 100) * 1200) + 1 / 2) = x3 at hbound ⊢
  have hX0 : (0 : ℚ) ≤ c / 100 * 1200 + 1 / 2 := by positivity
  have hx0 : (0 : ℚ) ≤ x3 := by linarith [hbound.1]
  have h1 : ⌊x3⌋₊ ≤ ⌊c / 100 * 1200 + 1 / 2⌋₊ + 1 := by
    have hlt : x3 < (⌊c / 100 * 1200 + 1 / 2⌋₊ : ℚ) + 1 + 1 := by
      have := Nat.lt_floor_add_one (c / 100 * 1200 + 1 / 2)
      linarith [hbound.2]
    have : ⌊x3⌋₊ < ⌊c / 100 * 1200 + 1 / 2⌋₊ + 1 + 1 := by
      rw [Nat.floor_lt hx0]
      exact_mod_cast hlt
    omega
  have h2 : ⌊c / 100 * 1200 + 1 / 2⌋₊ ≤ ⌊x3⌋₊ + 1 := by
    have hlt : c / 100 * 1200 + 1 / 2 < (⌊x3⌋₊ : ℚ) + 1 + 1 := by
      have := Nat.lt_floor_add_one x3
      linarith [hbound.1]
    have : ⌊c / 100 * 1200 + 1 / 2⌋₊ < ⌊x3⌋₊ + 1 + 1 := by
      rw [Nat.floor_lt hX0]
      exact_mod_cast hlt
    omega
  omega

theorem round_half_even_of_near (x : ℚ) (m : ℤ) (h : |x - (m : ℚ)| < 1 / 2) :
    round_half_even x = m := by
  rw [abs_lt] at h
  unfold round_half_even
  simp only []
  rcases le_or_lt (m : ℚ) x with hge | hlt
  · have hf : ⌊x⌋ = m := by
      rw [Int.floor_eq_iff]
      constructor <;> linarith [h.2]
    rw [hf, if_pos (by linarith [h.2])]
  · have hf : ⌊x⌋ = m - 1 := by
      rw [Int.floor_eq_iff]
      push_cast
      constructor <;> linarith [h.1]
    rw [hf]
    push_cast
    rw [if_neg (by linarith [h.1]), if_pos (by linarith [h.1])]
    ring

/-- Evaluation of a rounding: in the binade 2^e <= |x| < 2^(e + 1) of the
normal range, x rounds to m * 2^(e - 23) for the integer m nearest to
x / 2^(e - 23). -/
theorem binary32_eval (x : ℚ) (e m : ℤ) (hlo : (2 : ℚ) ^ e ≤ |x|)
    (hhi : |x| < (2 : ℚ) ^ (e + 1)) (hnorm : -126 ≤ e)
    (hm : |x / (2 : ℚ) ^ (e - 23) - (m : ℚ)| < 1 / 2) :
    binary32 x = (m : ℚ) * (2 : ℚ) ^ (e - 23) := by
  have hq := binary32_quantum_of_binade x e hlo hhi hnorm
  unfold binary32
  rw [hq, round_half_even_of_near _ m hm]

theorem new_cc_value_tie_below : new_cc_value (21 / 8) = 31 := by
  rw [new_cc_value_floor]
  have hc : max (0 : ℚ) (min (21 / 8) 100) = 21 / 8 := by
    rw [min_eq_left (by norm_num), max_eq_right (by norm_num)]
  have h1 : binary32 ((21 / 8 : ℚ) / 100) = 14092861 / 2 ^ 29 := by
    have h := binary32_eval ((21 / 8 : ℚ) / 100) (-6) 14092861
      (by rw [abs_of_pos] <;> norm_num) (by rw [abs_of_pos] <;> norm_num) (by norm_num)
      (by rw [abs_lt]; norm_num)
    rw [h]
    norm_num
  have h2 : binary32 ((14092861 / 2 ^ 29 : ℚ) * 1200) = 16515071 / 2 ^ 19 := by
    have h := binary32_eval ((14092861 / 2 ^ 29 : ℚ) * 1200) 4 16515071
      (by rw [abs_of_pos] <;> norm_num) (by rw [abs_of_pos] <;> norm_num) (by norm_num)
      (by rw [abs_lt]; norm_num)
    rw [h]
    norm_num
  have h3 : binary32 ((16515071 / 2 ^ 19 : ℚ) + 1 / 2) = 16777215 / 2 ^ 19 := by
    have h := binary32_eval ((16515071 / 2 ^ 19 : ℚ) + 1 / 2) 4 16777215
      (by rw [abs_of_pos] <;> norm_num) (by rw [abs_of_pos] <;> norm_num) (by norm_num)
      (by rw [abs_lt]; norm_num)
    rw [h]
    norm_num
  rw [hc, h1, h2, h3]
  have hf : ⌊(16777215 / 2 ^ 19 : ℚ)⌋₊ = 31 := by
    rw [Nat.floor_eq_iff (by norm_num)]
    norm_num
  rw [hf]
  rfl

theorem round_half_even_tie_odd (m : ℤ) (hodd : m % 2 = 1) :
    round_half_even ((m : ℚ) + 1 / 2) = m + 1 := by
  have hf : ⌊(m : ℚ) + 1 / 2⌋ = m := by
    rw [Int.floor_eq_iff]
    constructor <;> linarith
  unfold round_half_even
  simp only [hf]
  rw [if_neg (by norm_num), if_neg (by norm_num), if_neg (by omega)]

theorem binary32_eval_tie_odd (x : ℚ) (e m : ℤ) (hlo : (2 : ℚ) ^ e ≤ |x|)
    (hhi : |x| < (2 : ℚ) ^ (e + 1)) (hnorm : -126 ≤ e) (hodd : m % 2 = 1)
    (hm : x / (2 : ℚ) ^ (e - 23) = (m : ℚ) + 1 / 2) :
    binary32 x = ((m + 1 : ℤ) : ℚ) * (2 : ℚ) ^ (e - 23) := by
  have hq := binary32_quantum_of_binade x e hlo hhi hnorm
  unfold binary32
  rw [hq, hm, round_half_even_tie_odd m hodd]

theorem new_cc_value_below_half_count : new_cc_value (5592405 / 134217728) = 1 := by
  rw [new_cc_value_floor]
  have hc : max (0 : ℚ) (min (5592405 / 134217728) 100) = 5592405 / 134217728 := by
    rw [min_eq_left (by norm_num), max_eq_right (by norm_num)]
  have h1 : binary32 ((5592405 / 134217728 : ℚ) / 100) = 14316557 / 2 ^ 35 := by
    have h := binary32_eval ((5592405 / 134217728 : ℚ) / 100) (-12) 14316557
      (by rw [abs_of_pos] <;> norm_num) (by rw [abs_of_pos] <;> norm_num) (by norm_num)
      (by rw [abs_lt]; norm_num)
    rw [h]
    norm_num
  have h2 : binary32 ((14316557 / 2 ^ 35 : ℚ) * 1200) = 16777215 / 2 ^ 25 := by
    have h := binary32_eval ((14316557 / 2 ^ 35 : ℚ) * 1200) (-2) 16777215
      (by rw [abs_of_pos] <;> norm_num) (by rw [abs_of_pos] <;> norm_num) (by norm_num)
      (by rw [abs_lt]; norm_num)
    rw [h]
    norm_num
  have h3 : binary32 ((16777215 / 2 ^ 25 : ℚ) + 1 / 2) = 1 := by
    have h := binary32_eval_tie_odd ((16777215 / 2 ^ 25 : ℚ) + 1 / 2) (-1) 16777215
      (by rw [abs_of_pos] <;> norm_num) (by rw [abs_of_pos] <;> norm_num) (by norm_num)
      (by norm_num) (by norm_num)
    rw [h]
    norm_num
  rw [hc, h1, h2, h3]
  have hf : ⌊(1 : ℚ)⌋₊ = 1 := by
    rw [Nat.floor_eq_iff (by norm_num)]
    norm_num
  rw [hf]
  rfl

theorem elapsed_ms_between_eq (start now : Nat) (hs : start < 4294967296)
    (hn : now < 4294967296) :
    elapsed_ms_between start now = (now + 4294967296 - start) % 4294967296 := by
  unfold elapsed_ms_between
  split <;> omega

theorem elapsed_ms_between_add (t0 t : Nat) (ht0 : t0 < 4294967296) (ht : t < 4294967296) :
    elapsed_ms_between t0 ((t0 + t) % 4294967296) = t := by
  rw [elapsed_ms_between_eq t0 _ ht0 (Nat.mod_lt _ (by norm_num))]
  omega

theorem elapsed_ms_between_self (t : Nat) : elapsed_ms_between t t = 0 := by
  unfold elapsed_ms_between
  rw [if_pos (le_refl t)]
  omega

theorem elapsed_ms_between_le (t0 t1 : Nat) (h : t0 ≤ t1) (ht1 : t1 < 4294967296) :
    elapsed_ms_between t0 t1 = t1 - t0 := by
  unfold elapsed_ms_between
  rw [if_pos h]
  omega

theorem get_flow_rate_zero : get_flow_rate_ml_per_sec 0 = 0 := by
  norm_num [get_flow_rate_ml_per_sec, flow_rate_of_table, calibration_table]

theorem get_current_duty_percentage_eq (s : PumpModule) :
    get_current_duty_percentage s = (s.current_pump_cc_value : ℚ) * 100 / 1200 := by
  norm_num [get_current_duty_percentage, PUMP_PWM_PERIOD]

/-- The volume that closing the open interval of `s` at clock value `now`
credits: flow rate at the duty in effect times the elapsed seconds. -/
theorem pump_stop_tracking_open (now : Nat) (s : PumpModule)
    (h : s.is_tracking_pump_run = true) :
    pump_stop_tracking now s =
      { s with
        total_volume_dispensed_ml := s.total_volume_dispensed_ml +
          get_flow_rate_ml_per_sec (get_current_duty_percentage s) *
            ((elapsed_ms_between s.pump_run_start_ms now : ℚ) / 1000)
        is_tracking_pump_run := false } := by
  simp [pump_stop_tracking, h]

theorem pump_stop_tracking_closed (now : Nat) (s : PumpModule)
    (h : s.is_tracking_pump_run = false) : pump_stop_tracking now s = s := by
  simp [pump_stop_tracking, h]

theorem pump_activate_idle (p : ℚ) (ts tb : Nat) (s : PumpModule)
    (hact : s.pump_is_active = false) (htr : s.is_tracking_pump_run = false) :
    pump_activate p ts tb s =
      if new_cc_value p > 0 then
        { s with
          tcc_compare_value := new_cc_value p
          current_pump_cc_value := new_cc_value p
          pump_is_active := true
          pump_run_start_ms := tb
          is_tracking_pump_run := true }
      else
        { s with
          tcc_compare_value := new_cc_value p
          current_pump_cc_value := new_cc_value p
          is_tracking_pump_run := false } := by
  unfold pump_activate
  simp only [htr, hact]
  split <;> simp [pump_start_tracking, htr, hact]

theorem pump_activate_running_change (p : ℚ) (ts tb : Nat) (s : PumpModule)
    (hact : s.pump_is_active = true) (htr : s.is_tracking_pump_run = true)
    (hne : new_cc_value p ≠ s.current_pump_cc_value) :
    pump_activate p ts tb s =
      { s with
        total_volume_dispensed_ml := s.total_volume_dispensed_ml +
          get_flow_rate_ml_per_sec (get_current_duty_percentage s) *
            ((elapsed_ms_between s.pump_run_start_ms ts : ℚ) / 1000)
        tcc_compare_value := new_cc_value p
        current_pump_cc_value := new_cc_value p
        pump_is_active := decide (new_cc_value p > 0)
        pump_run_start_ms := if new_cc_value p > 0 then tb else s.pump_run_start_ms
        is_tracking_pump_run := decide (new_cc_value p > 0) } := by
  have hcond : s.is_tracking_pump_run = true ∧ new_cc_value p ≠ s.current_pump_cc_value :=
    ⟨htr, hne⟩
  unfold pump_activate
  simp only [if_pos hcond]
  rw [pump_stop_tracking_open ts s htr]
  by_cases hpos : new_cc_value p > 0
  · simp [hpos, pump_start_tracking, hact, hne.symm]
  · simp [hpos, hact, pump_stop_tracking_closed]

theorem pump_activate_running_same (p : ℚ) (ts tb : Nat) (s : PumpModule)
    (hact : s.pump_is_active = true) (htr : s.is_tracking_pump_run = true)
    (hpos : s.current_pump_cc_value > 0)
    (heq : new_cc_value p = s.current_pump_cc_value) :
    pump_activate p ts tb s = { s with tcc_compare_value := new_cc_value p } := by
  unfold pump_activate
  simp [htr, heq, hpos, hact]

theorem pump_start_tracking_cc (tick : Nat) (s : PumpModule) :
    (pump_start_tracking tick s).current_pump_cc_value = s.current_pump_cc_value ∧
    (pump_start_tracking tick s).tcc_compare_value = s.tcc_compare_value := by
  unfold pump_start_tracking
  split <;> exact ⟨rfl, rfl⟩

theorem pump_stop_tracking_cc (tick : Nat) (s : PumpModule) :
    (pump_stop_tracking tick s).current_pump_cc_value = s.current_pump_cc_value ∧
    (pump_stop_tracking tick s).tcc_compare_value = s.tcc_compare_value := by
  unfold pump_stop_tracking
  split <;> exact ⟨rfl, rfl⟩

theorem pump_activate_cc (p : ℚ) (ts tb : Nat) (s : PumpModule) :
    (pump_activate p ts tb s).current_pump_cc_value = new_cc_value p ∧
    (pump_activate p ts tb s).tcc_compare_value = new_cc_value p := by
  simp only [pump_activate]
  split_ifs <;>
    simp [(pump_start_tracking_cc _ _).1, (pump_start_tracking_cc _ _).2,
      (pump_stop_tracking_cc _ _).1, (pump_stop_tracking_cc _ _).2]

theorem pump_init_consistent (s : PumpModule) : PumpConsistent (pump_init s) := by
  simp [PumpConsistent, pump_init]

theorem pump_activate_consistent (p : ℚ) (ts tb : Nat) (s : PumpModule)
    (h : PumpConsistent s) : PumpConsistent (pump_activate p ts tb s) := by
  obtain ⟨htr, hcc⟩ := h
  cases hact : s.pump_is_active with
  | false =>
    rw [hact] at htr
    rw [pump_activate_idle p ts tb s hact htr]
    split
    · rename_i hpos
      simp [PumpConsistent, hpos]
    · rename_i hpos
      simp [PumpConsistent, hact, htr, hpos]
  | true =>
    rw [hact] at htr
    have hpos : s.current_pump_cc_value > 0 := hcc.mp hact
    by_cases heq : new_cc_value p = s.current_pump_cc_value
    · rw [pump_activate_running_same p ts tb s hact htr hpos heq]
      simp [PumpConsistent, hact, htr, hpos]
    · rw [pump_activate_running_change p ts tb s hact htr heq]
      simp [PumpConsistent]

theorem pump_reset_open (ts tb : Nat) (s : PumpModule)
    (hact : s.pump_is_active = true) (htr : s.is_tracking_pump_run = true) :
    pump_reset_total_volume ts tb s =
      { s with
        total_volume_dispensed_ml := 0
        pump_run_start_ms := tb
        is_tracking_pump_run := true } := by
  unfold pump_reset_total_volume
  rw [if_pos htr, pump_stop_tracking_open ts s htr]
  simp [pump_start_tracking, hact]

theorem pump_reset_closed (ts tb : Nat) (s : PumpModule)
    (htr : s.is_tracking_pump_run = false) :
    pump_reset_total_volume ts tb s = { s with total_volume_dispensed_ml := 0 } := by
  unfold pump_reset_total_volume
  simp [htr]

theorem pump_reset_consistent (ts tb : Nat) (s : PumpModule)
    (h : PumpConsistent s) : PumpConsistent (pump_reset_total_volume ts tb s) := by
  obtain ⟨htr, hcc⟩ := h
  cases hact : s.pump_is_active with
  | false =>
    rw [hact] at htr
    rw [pump_reset_closed ts tb s htr]
    simpa [PumpConsistent, hact, htr] using hcc
  | true =>
    rw [hact] at htr
    rw [pump_reset_open ts tb s hact htr]
    simpa [PumpConsistent, hact] using hcc

theorem pump_call_consistent (c : PumpCall) (s : PumpModule) (h : PumpConsistent s) :
    PumpConsistent (pump_call c s) := by
  cases c with
  | activate p ts tb => exact pump_activate_consistent p ts tb s h
  | deactivate ts tb => exact pump_activate_consistent 0 ts tb s h
  | adjust_flow p ts tb => exact pump_activate_consistent p ts tb s h
  | reset_total_volume ts tb => exact pump_reset_consistent ts tb s h
  | get_total_volume_ml now => exact h

theorem pump_calls_consistent (calls : List PumpCall) :
    ∀ s : PumpModule, PumpConsistent s → PumpConsistent (pump_calls calls s) := by
  induction calls with
  | nil => intro s h; exact h
  | cons c rest ih => intro s h; exact ih _ (pump_call_consistent c s h)

/-- The state after pump_init and one pump_activate. -/
theorem first_activation (boot : PumpModule) (d : ℚ) (ts tb : Nat) :
    pump_activate d ts tb (pump_init boot) =
      if new_cc_value d > 0 then
        { pump_init boot with
          tcc_compare_value := new_cc_value d
          current_pump_cc_value := new_cc_value d
          pump_is_active := true
          pump_run_start_ms := tb
          is_tracking_pump_run := true }
      else
        { pump_init boot with
          tcc_compare_value := new_cc_value d
          current_pump_cc_value := new_cc_value d
          is_tracking_pump_run := false } :=
  pump_activate_idle d ts tb (pump_init boot) rfl rfl

theorem round_trip_total (boot : PumpModule) (d : ℚ) (t0 t now : Nat)
    (ht0 : t0 < 4294967296) (ht : t < 4294967296) :
    pump_get_total_volume_ml now
        (pump_deactivate ((t0 + t) % 4294967296) ((t0 + t) % 4294967296)
          (pump_activate d t0 t0 (pump_init boot)))
      = get_flow_rate_ml_per_sec ((new_cc_value d : ℚ) * 100 / 1200) * ((t : ℚ) / 1000) := by
  rw [first_activation]
  by_cases hpos : new_cc_value d > 0
  · rw [if_pos hpos]
    unfold pump_deactivate
    rw [pump_activate_running_change 0 _ _ _ rfl rfl (by rw [new_cc_value_zero]; exact Nat.ne_of_lt hpos)]
    simp [pump_get_total_volume_ml, new_cc_value_zero, get_current_duty_percentage_eq,
      elapsed_ms_between_add t0 t ht0 ht, pump_init]
  · rw [if_neg hpos]
    have hz : new_cc_value d = 0 := by omega
    unfold pump_deactivate
    rw [pump_activate_idle 0 _ _ _ rfl rfl]
    simp [pump_get_total_volume_ml, new_cc_value_zero, hz, get_flow_rate_zero, pump_init]

theorem two_interval_total (boot : PumpModule) (d1 d2 : ℚ) (t0 t1 t2 : Nat)
    (h01 : t0 ≤ t1) (h12 : t1 ≤ t2) (h2 : t2 < 4294967296) :
    (pump_deactivate t2 t2
        (pump_activate d2 t1 t1 (pump_activate d1 t0 t0 (pump_init boot)))).total_volume_dispensed_ml
      = get_flow_rate_ml_per_sec ((new_cc_value d1 : ℚ) * 100 / 1200)
          * (((t1 - t0 : ℕ) : ℚ) / 1000)
        + get_flow_rate_ml_per_sec ((new_cc_value d2 : ℚ) * 100 / 1200)
          * (((t2 - t1 : ℕ) : ℚ) / 1000) := by
  have e01 := elapsed_ms_between_le t0 t1 h01 (by omega)
  have e12 := elapsed_ms_between_le t1 t2 h12 h2
  have e02 := elapsed_ms_between_le t0 t2 (by omega) h2
  have hsplit : ((t2 - t0 : ℕ) : ℚ) = ((t1 - t0 : ℕ) : ℚ) + ((t2 - t1 : ℕ) : ℚ) := by
    have : t2 - t0 = (t1 - t0) + (t2 - t1) := by omega
    rw [this]
    push_cast
    ring
  rcases Nat.eq_zero_or_pos (new_cc_value d1) with hc1 | hc1
  · rcases Nat.eq_zero_or_pos (new_cc_value d2) with hc2 | hc2
    · simp [pump_deactivate, pump_activate, pump_init, pump_stop_tracking,
        pump_start_tracking, new_cc_value_zero, hc1, hc2, get_flow_rate_zero]
    · simp [pump_deactivate, pump_activate, pump_init, pump_stop_tracking,
        pump_start_tracking, new_cc_value_zero, hc1, hc2, get_flow_rate_zero,
        get_current_duty_percentage_eq, e12, Nat.ne_of_gt hc2, Nat.ne_of_lt hc2]
  · by_cases heq : new_cc_value d2 = new_cc_value d1
    · simp [pump_deactivate, pump_activate, pump_init, pump_stop_tracking,
        pump_start_tracking, new_cc_value_zero, hc1, heq,
        get_current_duty_percentage_eq, e02, Nat.ne_of_gt hc1, Nat.ne_of_lt hc1, hsplit]
      ring
    · rcases Nat.eq_zero_or_pos (new_cc_value d2) with hc2 | hc2
      · simp [pump_deactivate, pump_activate, pump_init, pump_stop_tracking,
          pump_start_tracking, new_cc_value_zero, hc1, hc2, get_flow_rate_zero,
          get_current_duty_percentage_eq, e01, Nat.ne_of_gt hc1, Nat.ne_of_lt hc1]
      · simp [pump_deactivate, pump_activate, pump_init, pump_stop_tracking,
          pump_start_tracking, new_cc_value_zero, hc1, hc2, heq, Ne.symm heq,
          get_current_duty_percentage_eq, e01, e12, Nat.ne_of_gt hc1, Nat.ne_of_lt hc1,
          Nat.ne_of_gt hc2, Nat.ne_of_lt hc2]

theorem second_activation_state (boot : PumpModule) (d1 d2 : ℚ) (t0 t1 : Nat)
    (h01 : t0 ≤ t1) (h1 : t1 < 4294967296)
    (hne : new_cc_value d2 ≠ new_cc_value d1) (hpos : new_cc_value d2 > 0) :
    (pump_activate d2 t1 t1
        (pump_activate d1 t0 t0 (pump_init boot))).total_volume_dispensed_ml
      = get_flow_rate_ml_per_sec ((new_cc_value d1 : ℚ) * 100 / 1200)
          * (((t1 - t0 : ℕ) : ℚ) / 1000) ∧
    (pump_activate d2 t1 t1
        (pump_activate d1 t0 t0 (pump_init boot))).is_tracking_pump_run = true ∧
    (pump_activate d2 t1 t1
        (pump_activate d1 t0 t0 (pump_init boot))).pump_run_start_ms = t1 ∧
    (pump_activate d2 t1 t1
        (pump_activate d1 t0 t0 (pump_init boot))).pump_is_active = true := by
  have e01 := elapsed_ms_between_le t0 t1 h01 h1
  rcases Nat.eq_zero_or_pos (new_cc_value d1) with hc1 | hc1
  · simp [pump_activate, pump_init, pump_stop_tracking, pump_start_tracking, hc1, hpos,
      get_flow_rate_zero, Nat.ne_of_gt hpos, Nat.ne_of_lt hpos]
  · simp [pump_activate, pump_init, pump_stop_tracking, pump_start_tracking, hc1, hpos,
      hne, Ne.symm hne, get_current_duty_percentage_eq, e01, Nat.ne_of_gt hc1,
      Nat.ne_of_lt hc1, Nat.ne_of_gt hpos, Nat.ne_of_lt hpos]

theorem flow_rate_at_600 : get_flow_rate_ml_per_sec (((600 : ℕ) : ℚ) * 100 / 1200) = 5 / 2 := by
  norm_num [get_flow_rate_ml_per_sec, flow_rate_of_table, calibration_table, scan_table,
    interpolate, abs_lt]

theorem flow_rate_at_1199 :
    get_flow_rate_ml_per_sec (((1199 : ℕ) : ℚ) * 100 / 1200) = 13907 / 2400 := by
  norm_num [get_flow_rate_ml_per_sec, flow_rate_of_table, calibration_table, scan_table,
    interpolate, abs_lt]

theorem new_cc_value_half : new_cc_value 50 = 600 :=
  new_cc_value_of_twelfth 50 600 (by norm_num) (by norm_num)

theorem interpolate_gap (p1 p2 : PumpCalibrationPoint)
    (hd : p1.duty_cycle_percent ≤ p2.duty_cycle_percent)
    (hgap : ¬ |p2.duty_cycle_percent - p1.duty_cycle_percent| < 0.01) :
    0 < p2.duty_cycle_percent - p1.duty_cycle_percent := by
  rw [abs_of_nonneg (by linarith)] at hgap
  norm_num at hgap
  linarith

theorem interpolate_bounds (p1 p2 : PumpCalibrationPoint) (d : ℚ)
    (hd : p1.duty_cycle_percent ≤ p2.duty_cycle_percent)
    (hr : p1.flow_rate_ml_per_sec ≤ p2.flow_rate_ml_per_sec)
    (h1 : p1.duty_cycle_percent ≤ d) (h2 : d ≤ p2.duty_cycle_percent) :
    p1.flow_rate_ml_per_sec ≤ interpolate p1 p2 d ∧
    interpolate p1 p2 d ≤ p2.flow_rate_ml_per_sec := by
  unfold interpolate
  simp only []
  split
  · exact ⟨le_refl _, hr⟩
  · rename_i hgap
    have hpos := interpolate_gap p1 p2 hd hgap
    have hnum : 0 ≤ (d - p1.duty_cycle_percent)
        * (p2.flow_rate_ml_per_sec - p1.flow_rate_ml_per_sec) :=
      mul_nonneg (by linarith) (by linarith)
    have hle : (d - p1.duty_cycle_percent)
        * (p2.flow_rate_ml_per_sec - p1.flow_rate_ml_per_sec)
        / (p2.duty_cycle_percent - p1.duty_cycle_percent)
        ≤ p2.flow_rate_ml_per_sec - p1.flow_rate_ml_per_sec := by
      rw [div_le_iff₀ hpos]
      have : (d - p1.duty_cycle_percent)
          * (p2.flow_rate_ml_per_sec - p1.flow_rate_ml_per_sec)
          ≤ (p2.duty_cycle_percent - p1.duty_cycle_percent)
          * (p2.flow_rate_ml_per_sec - p1.flow_rate_ml_per_sec) :=
        mul_le_mul_of_nonneg_right (by linarith) (by linarith)
      linarith
    have hge := div_nonneg hnum hpos.le
    constructor <;> linarith

theorem interpolate_mono (p1 p2 : PumpCalibrationPoint) (d d' : ℚ)
    (hd : p1.duty_cycle_percent ≤ p2.duty_cycle_percent)
    (hr : p1.flow_rate_ml_per_sec ≤ p2.flow_rate_ml_per_sec) (hdd : d ≤ d') :
    interpolate p1 p2 d ≤ interpolate p1 p2 d' := by
  unfold interpolate
  simp only []
  split
  · exact le_refl _
  · rename_i hgap
    have hpos := interpolate_gap p1 p2 hd hgap
    have hnum : (d - p1.duty_cycle_percent)
        * (p2.flow_rate_ml_per_sec - p1.flow_rate_ml_per_sec)
        ≤ (d' - p1.duty_cycle_percent)
        * (p2.flow_rate_ml_per_sec - p1.flow_rate_ml_per_sec) :=
      mul_le_mul_of_nonneg_right (by linarith) (by linarith)
    have := div_le_div_of_nonneg_right hnum hpos.le
    linarith

theorem ascending_head_le_last :
    ∀ (p : PumpCalibrationPoint) (rest : List PumpCalibrationPoint),
      table_ascending (p :: rest) →
      p.flow_rate_ml_per_sec ≤ (rest.getLastD p).flow_rate_ml_per_sec ∧
      p.duty_cycle_percent ≤ (rest.getLastD p).duty_cycle_percent
  | p, [], _ => ⟨le_refl _, le_refl _⟩
  | p1, p2 :: rest, h => by
    obtain ⟨hd, hr, hrest⟩ := h
    have ih := ascending_head_le_last p2 rest hrest
    rw [List.getLastD_cons]
    exact ⟨le_trans hr ih.1, le_trans hd ih.2⟩

theorem scan_table_bounds :
    ∀ (p : PumpCalibrationPoint) (rest : List PumpCalibrationPoint) (d v : ℚ),
      table_ascending (p :: rest) → scan_table (p :: rest) d = some v →
      p.flow_rate_ml_per_sec ≤ v ∧ v ≤ (rest.getLastD p).flow_rate_ml_per_sec
  | p, [], d, v, _, hv => by simp [scan_table] at hv
  | p1, p2 :: rest, d, v, h, hv => by
    obtain ⟨hd, hr, hrest⟩ := h
    have hlast := ascending_head_le_last p2 rest hrest
    rw [List.getLastD_cons]
    unfold scan_table at hv
    split at hv
    · rename_i hin
      have hb := interpolate_bounds p1 p2 d hd hr hin.1 hin.2
      have hv' : interpolate p1 p2 d = v := Option.some.inj hv
      rw [← hv']
      exact ⟨hb.1, le_trans hb.2 hlast.1⟩
    · have ih := scan_table_bounds p2 rest d v hrest hv
      exact ⟨le_trans hr ih.1, ih.2⟩

theorem scan_table_finds :
    ∀ (p : PumpCalibrationPoint) (rest : List PumpCalibrationPoint) (d : ℚ),
      p.duty_cycle_percent ≤ d → d < (rest.getLastD p).duty_cycle_percent →
      ∃ v, scan_table (p :: rest) d = some v
  | p, [], d, hlo, hhi => by
    simp only [List.getLastD_nil] at hhi
    exact absurd hlo (not_le.mpr hhi)
  | p1, p2 :: rest, d, hlo, hhi => by
    rw [List.getLastD_cons] at hhi
    unfold scan_table
    by_cases hin : d ≥ p1.duty_cycle_percent ∧ d ≤ p2.duty_cycle_percent
    · rw [if_pos hin]
      exact ⟨_, rfl⟩
    · rw [if_neg hin]
      have h2 : p2.duty_cycle_percent ≤ d := by
        by_contra hcon
        exact hin ⟨hlo, le_of_lt (not_le.mp hcon)⟩
      exact scan_table_finds p2 rest d h2 hhi

theorem scan_table_mono :
    ∀ (p : PumpCalibrationPoint) (rest : List PumpCalibrationPoint) (d d' v v' : ℚ),
      table_ascending (p :: rest) → p.duty_cycle_percent ≤ d → d ≤ d' →
      scan_table (p :: rest) d = some v → scan_table (p :: rest) d' = some v' → v ≤ v'
  | p, [], d, d', v, v', _, _, _, hv, _ => by simp [scan_table] at hv
  | p1, p2 :: rest, d, d', v, v', h, hlo, hdd, hv, hv' => by
    obtain ⟨hd, hr, hrest⟩ := h
    unfold scan_table at hv hv'
    by_cases hin : d ≥ p1.duty_cycle_percent ∧ d ≤ p2.duty_cycle_percent
    · rw [if_pos hin] at hv
      have hb := interpolate_bounds p1 p2 d hd hr hin.1 hin.2
      rw [← Option.some.inj hv]
      by_cases hin' : d' ≥ p1.duty_cycle_percent ∧ d' ≤ p2.duty_cycle_percent
      · rw [if_pos hin'] at hv'
        rw [← Option.some.inj hv']
        exact interpolate_mono p1 p2 d d' hd hr hdd
      · rw [if_neg hin'] at hv'
        have ih := scan_table_bounds p2 rest d' v' hrest hv'
        exact le_trans hb.2 ih.1
    · rw [if_neg hin] at hv
      have h2 : p2.duty_cycle_percent ≤ d := by
        by_contra hcon
        exact hin ⟨hlo, le_of_lt (not_le.mp hcon)⟩
      have hin' : ¬ (d' ≥ p1.duty_cycle_percent ∧ d' ≤ p2.duty_cycle_percent) := by
        rintro ⟨_, hle⟩
        exact hin ⟨hlo, le_trans hdd hle⟩
      rw [if_neg hin'] at hv'
      exact scan_table_mono p2 rest d d' v v' hrest h2 hdd hv hv'

theorem calibration_table_flows_nonneg :
    ∀ p ∈ calibration_table, 0 ≤ p.flow_rate_ml_per_sec := by
  intro p hp
  simp only [calibration_table, List.mem_cons, List.mem_singleton, List.not_mem_nil,
    or_false] at hp
  rcases hp with h | h | h | h | h <;> rw [h] <;> norm_num

theorem calibration_table_ascending : table_ascending calibration_table := by
  norm_num [table_ascending, calibration_table]

theorem wait_flag_armed (m : CalibrationModule)
    (hflag : m.current_button_state ≠ .BUTTON_HANDLED) :
    (arm_prompt m).current_button_state = .BUTTON_PRESSED ∧
    (arm_prompt m).calibration_ctx = m.calibration_ctx ∧
    (arm_prompt m).calibration_complete = m.calibration_complete := by
  unfold arm_prompt
  cases h : m.current_button_state with
  | BUTTON_RELEASED => simp
  | BUTTON_PRESSED => simp [h]
  | BUTTON_HANDLED => exact absurd h hflag

theorem dry_wait_step {Flash : Type} (nvm : NvmModel Flash) (inp : TickInput)
    (m : CalibrationModule) (flash : Flash)
    (hstate : m.calibration_ctx.current_state = .CALIBRATION_DRY_WAIT)
    (hflag : m.current_button_state ≠ .BUTTON_HANDLED) :
    calibration_process nvm inp m flash =
      if inp.button_first = true ∧ inp.button_second = false then
        { ret := false
          module :=
            { calibration_ctx :=
                { m.calibration_ctx with
                  dry_calibration_value := inp.adc
                  current_state := .CALIBRATION_WET_WAIT }
              calibration_complete := m.calibration_complete
              current_button_state := .BUTTON_RELEASED }
          flash := flash }
      else
        { ret := false
          module := { m with current_button_state := .BUTTON_PRESSED }
          flash := flash } := by
  obtain ⟨h1, h2, h3⟩ := wait_flag_armed m hflag
  have harm : arm_prompt m = { m with current_button_state := .BUTTON_PRESSED } := by
    cases hm : arm_prompt m
    simp only [hm] at h1 h2 h3
    subst h1 h2 h3
    rfl
  simp only [calibration_process, hstate, harm]
  cases hb1 : inp.button_first <;> cases hb2 : inp.button_second <;> simp

theorem wet_wait_step {Flash : Type} (nvm : NvmModel Flash) (inp : TickInput)
    (m : CalibrationModule) (flash : Flash)
    (hstate : m.calibration_ctx.current_state = .CALIBRATION_WET_WAIT)
    (hflag : m.current_button_state ≠ .BUTTON_HANDLED) :
    calibration_process nvm inp m flash =
      if inp.button_first = true ∧ inp.button_second = false then
        { ret := false
          module :=
            { calibration_ctx :=
                { m.calibration_ctx with
                  wet_calibration_value := inp.adc
                  current_state := .CALIBRATION_COMPLETE }
              calibration_complete := m.calibration_complete
              current_button_state := .BUTTON_RELEASED }
          flash := flash }
      else
        { ret := false
          module := { m with current_button_state := .BUTTON_PRESSED }
          flash := flash } := by
  obtain ⟨h1, h2, h3⟩ := wait_flag_armed m hflag
  have harm : arm_prompt m = { m with current_button_state := .BUTTON_PRESSED } := by
    cases hm : arm_prompt m
    simp only [hm] at h1 h2 h3
    subst h1 h2 h3
    rfl
  simp only [calibration_process, hstate, harm]
  cases hb1 : inp.button_first <;> cases hb2 : inp.button_second <;> simp

theorem calibration_init_consistent {Flash : Type} (nvm : NvmModel Flash)
    (boot : CalibrationModule) (flash : Flash) :
    EngineConsistent (calibration_init nvm boot flash) := by
  by_cases hmagic : (nvm.memcpy_record CALIBRATION_FLASH_ADDRESS flash).magic_number
      = CALIBRATION_MAGIC_NUMBER
  · rw [calibration_init_stored nvm boot flash hmagic]
    simp [EngineConsistent]
  · rw [calibration_init_fresh nvm boot flash hmagic]
    simp [EngineConsistent]

theorem calibration_process_consistent {Flash : Type} (nvm : NvmModel Flash)
    (inp : TickInput) (m : CalibrationModule) (flash : Flash) (h : EngineConsistent m) :
    EngineConsistent (calibration_process nvm inp m flash).module ∧
    StatusValid (calibration_process nvm inp m flash).module := by
  obtain ⟨hflag, hdone⟩ := h
  cases hstate : m.calibration_ctx.current_state with
  | CALIBRATION_DRY_WAIT =>
    have hfalse : m.calibration_complete = false := by
      cases hc : m.calibration_complete with
      | false => rfl
      | true => rw [hdone hc] at hstate; cases hstate
    rw [dry_wait_step nvm inp m flash hstate hflag]
    split <;> simp [EngineConsistent, StatusValid, hfalse]
  | CALIBRATION_WET_WAIT =>
    have hfalse : m.calibration_complete = false := by
      cases hc : m.calibration_complete with
      | false => rfl
      | true => rw [hdone hc] at hstate; cases hstate
    rw [wet_wait_step nvm inp m flash hstate hflag]
    split <;> simp [EngineConsistent, StatusValid, hfalse]
  | CALIBRATION_COMPLETE =>
    by_cases hvalid : m.calibration_ctx.wet_calibration_value
        < m.calibration_ctx.dry_calibration_value
    · rw [complete_valid_step nvm inp m flash hstate hvalid]
      simp [EngineConsistent, StatusValid, hstate, hvalid, hflag]
    · rw [complete_invalid_step nvm inp m flash hstate (Nat.not_lt.mp hvalid)]
      simp [EngineConsistent, StatusValid]
  | CALIBRATION_IDLE =>
    have hfalse : m.calibration_complete = false := by
      cases hc : m.calibration_complete with
      | false => rfl
      | true => rw [hdone hc] at hstate; cases hstate
    simp [calibration_process, hstate, EngineConsistent, StatusValid, hfalse]
  | CALIBRATION_DRY_RECORD =>
    have hfalse : m.calibration_complete = false := by
      cases hc : m.calibration_complete with
      | false => rfl
      | true => rw [hdone hc] at hstate; cases hstate
    simp [calibration_process, hstate, EngineConsistent, StatusValid, hfalse]
  | CALIBRATION_WET_RECORD =>
    have hfalse : m.calibration_complete = false := by
      cases hc : m.calibration_complete with
      | false => rfl
      | true => rw [hdone hc] at hstate; cases hstate
    simp [calibration_process, hstate, EngineConsistent, StatusValid, hfalse]

theorem run_ticks_consistent {Flash : Type} (nvm : NvmModel Flash) (ticks : List TickInput) :
    ∀ (m : CalibrationModule) (flash : Flash), EngineConsistent m →
      EngineConsistent (run_ticks nvm ticks m flash).2.1 ∧
      (StatusValid m ∨ ticks ≠ [] → StatusValid (run_ticks nvm ticks m flash).2.1) := by
  induction ticks with
  | nil =>
    intro m flash h
    refine ⟨h, fun hv => ?_⟩
    rcases hv with hv | hv
    · exact hv
    · exact absurd rfl hv
  | cons inp rest ih =>
    intro m flash h
    have hstep := calibration_process_consistent nvm inp m flash h
    have hrec := ih (calibration_process nvm inp m flash).module
      (calibration_process nvm inp m flash).flash hstep.1
    simp only [run_ticks]
    exact ⟨hrec.1, fun _ => hrec.2 (Or.inl hstep.2)⟩

/-! ## Theorems -/

/-- C1: fresh-storage scenario.  After calibration_init on storage without a
valid record, a tick with the button unpressed leaves DryWait with nothing
recorded; a tick with a press+release edge and raw sample D records dry = D and
moves to WetWait; a tick with a press+release edge and raw sample W < D records
wet = W and moves to Complete; the next tick returns true, and on
write-retaining storage load_calibration_data then yields dry = D, wet = W. -/
theorem calibration_scenario_fresh {Flash : Type} (nvm : NvmModel Flash)
    (boot : CalibrationModule) (flash : Flash) (D W raw0 raw3 : Nat) (b0 b3 b3s : Bool)
    (any : CalibrationContext)
    (hret : Retains nvm)
    (hfresh : (nvm.memcpy_record CALIBRATION_FLASH_ADDRESS flash).magic_number
      ≠ CALIBRATION_MAGIC_NUMBER)
    (hWD : W < D) :
    (let s0 := calibration_init nvm boot flash
     let r1 := calibration_process nvm ⟨raw0, false, b0⟩ s0 flash
     let r2 := calibration_process nvm ⟨D, true, false⟩ r1.module r1.flash
     let r3 := calibration_process nvm ⟨W, true, false⟩ r2.module r2.flash
     let r4 := calibration_process nvm ⟨raw3, b3, b3s⟩ r3.module r3.flash
     (r1.ret = false ∧ r1.module.calibration_ctx.current_state = .CALIBRATION_DRY_WAIT ∧
       get_calibration_values r1.module = (0, 0) ∧ r1.flash = flash) ∧
     (r2.ret = false ∧ r2.module.calibration_ctx.current_state = .CALIBRATION_WET_WAIT ∧
       r2.module.calibration_ctx.dry_calibration_value = D ∧ r2.flash = flash) ∧
     (r3.ret = false ∧ r3.module.calibration_ctx.current_state = .CALIBRATION_COMPLETE ∧
       get_calibration_values r3.module = (D, W) ∧ r3.flash = flash) ∧
     r4.ret = true ∧ get_calibration_status r4.module = true ∧
     load_calibration_data nvm any r4.flash =
       (true, { any with dry_calibration_value := D, wet_calibration_value := W })) := by
  intro s0 r1 r2 r3 r4
  have hs0 := calibration_init_fresh nvm boot flash hfresh
  have hsave := save_retained nvm hret
    { current_state := .CALIBRATION_COMPLETE, dry_calibration_value := D,
      wet_calibration_value := W, calibration_attempts := 0 } flash
  simp only [s0, r1, r2, r3, r4, hs0]
  simp [calibration_process, arm_prompt, get_calibration_values, get_calibration_status, hWD,
    load_calibration_data, hsave.2, data_to_save]

/-- C1 at the spec's values D = 3800, W = 1200 on a working, erased flash. -/
theorem calibration_scenario_fresh_witness :
    Retains working_nvm ∧
    (working_nvm.memcpy_record CALIBRATION_FLASH_ADDRESS erased_record).magic_number
      ≠ CALIBRATION_MAGIC_NUMBER ∧
    1200 < 3800 ∧
    (let s0 := calibration_init working_nvm boot_module erased_record
     let r1 := calibration_process working_nvm ⟨4000, false, false⟩ s0 erased_record
     let r2 := calibration_process working_nvm ⟨3800, true, false⟩ r1.module r1.flash
     let r3 := calibration_process working_nvm ⟨1200, true, false⟩ r2.module r2.flash
     let r4 := calibration_process working_nvm ⟨1200, false, false⟩ r3.module r3.flash
     (r1.ret = false ∧ r1.module.calibration_ctx.current_state = .CALIBRATION_DRY_WAIT ∧
       get_calibration_values r1.module = (0, 0) ∧ r1.flash = erased_record) ∧
     (r2.ret = false ∧ r2.module.calibration_ctx.current_state = .CALIBRATION_WET_WAIT ∧
       r2.module.calibration_ctx.dry_calibration_value = 3800 ∧ r2.flash = erased_record) ∧
     (r3.ret = false ∧ r3.module.calibration_ctx.current_state = .CALIBRATION_COMPLETE ∧
       get_calibration_values r3.module = (3800, 1200) ∧ r3.flash = erased_record) ∧
     r4.ret = true ∧ get_calibration_status r4.module = true ∧
     load_calibration_data working_nvm boot_module.calibration_ctx r4.flash =
       (true, { boot_module.calibration_ctx with
                dry_calibration_value := 3800, wet_calibration_value := 1200 })) :=
  ⟨retains_working_nvm, by decide, by decide,
    calibration_scenario_fresh working_nvm boot_module erased_record 3800 1200 4000 1200
      false false false boot_module.calibration_ctx retains_working_nvm (by decide) (by decide)⟩

/-- C2 (the code at the failing input): after calibration_init on erased
storage, a tick on which every button read is pressed (raw sample D) followed
by a tick on which every read is not pressed leaves the engine in DryWait with
dry still 0: the press-then-release across the two ticks is not detected. -/
theorem held_press_then_release_not_detected (D raw2 : Nat) :
    (let s0 := calibration_init working_nvm boot_module erased_record
     let r1 := calibration_process working_nvm ⟨D, true, true⟩ s0 erased_record
     let r2 := calibration_process working_nvm ⟨raw2, false, false⟩ r1.module r1.flash
     r1.module.calibration_ctx.current_state = .CALIBRATION_DRY_WAIT ∧
     r2.module.calibration_ctx.current_state = .CALIBRATION_DRY_WAIT ∧
     r2.module.calibration_ctx.dry_calibration_value = 0) := by
  intro s0 r1 r2
  have hs0 : s0 = _ :=
    calibration_init_fresh working_nvm boot_module erased_record (by decide)
  simp only [r1, r2, hs0]
  simp [calibration_process, arm_prompt]

/-- C3: in Complete with wet < dry, calibration_process returns true, sets the
completion flag, leaves the context (state, dry, wet, attempts) unchanged and
leaves the flash as save_calibration_data of that context leaves it; this holds
for every flash controller, whatever save reports, and every later tick
returns true as well. -/
theorem complete_valid_tick {Flash : Type} (nvm : NvmModel Flash) (inp : TickInput)
    (m : CalibrationModule) (flash : Flash) (later : List TickInput)
    (hstate : m.calibration_ctx.current_state = .CALIBRATION_COMPLETE)
    (hvalid : m.calibration_ctx.wet_calibration_value
      < m.calibration_ctx.dry_calibration_value) :
    (let r := calibration_process nvm inp m flash
     r.ret = true ∧ get_calibration_status r.module = true ∧
     r.module.calibration_ctx = m.calibration_ctx ∧
     r.flash = (save_calibration_data nvm m.calibration_ctx flash).2 ∧
     (run_ticks nvm later r.module r.flash).1 = List.replicate later.length true) := by
  intro r
  have hstep : r = _ := complete_valid_step nvm inp m flash hstate hvalid
  rw [hstep]
  refine ⟨rfl, rfl, rfl, rfl, ?_⟩
  exact (run_ticks_complete_valid nvm later { m with calibration_complete := true }
    (save_calibration_data nvm m.calibration_ctx flash).2 hstate hvalid).1

/-- C3 on a flash whose page write has no effect, so that save reports
failure: the tick and the two after it still return true. -/
theorem complete_valid_tick_witness :
    (save_calibration_data stuck_nvm
      { current_state := .CALIBRATION_COMPLETE, dry_calibration_value := 3800,
        wet_calibration_value := 1200, calibration_attempts := 0 } erased_record).1 = false ∧
    (let m : CalibrationModule :=
      { calibration_ctx :=
          { current_state := .CALIBRATION_COMPLETE, dry_calibration_value := 3800,
            wet_calibration_value := 1200, calibration_attempts := 0 }
        calibration_complete := false
        current_button_state := .BUTTON_RELEASED }
     m.calibration_ctx.current_state = .CALIBRATION_COMPLETE ∧
     m.calibration_ctx.wet_calibration_value < m.calibration_ctx.dry_calibration_value ∧
     (let r := calibration_process stuck_nvm ⟨2000, true, false⟩ m erased_record
      r.ret = true ∧ get_calibration_status r.module = true ∧
      r.module.calibration_ctx = m.calibration_ctx ∧
      r.flash = (save_calibration_data stuck_nvm m.calibration_ctx erased_record).2 ∧
      (run_ticks stuck_nvm [⟨7, false, false⟩, ⟨9, true, true⟩] r.module r.flash).1
        = List.replicate [(⟨7, false, false⟩ : TickInput), ⟨9, true, true⟩].length true)) :=
  ⟨by decide, rfl, by decide,
    complete_valid_tick stuck_nvm ⟨2000, true, false⟩ _ erased_record
      [⟨7, false, false⟩, ⟨9, true, true⟩] rfl (by decide)⟩

/-- C4: in Complete with wet >= dry, calibration_process returns false, moves
to DryWait, clears the completion flag, sets the prompt flag to Released and
leaves the flash unchanged. -/
theorem complete_invalid_tick {Flash : Type} (nvm : NvmModel Flash) (inp : TickInput)
    (m : CalibrationModule) (flash : Flash)
    (hstate : m.calibration_ctx.current_state = .CALIBRATION_COMPLETE)
    (hinvalid : m.calibration_ctx.dry_calibration_value
      ≤ m.calibration_ctx.wet_calibration_value) :
    (let r := calibration_process nvm inp m flash
     r.ret = false ∧
     r.module.calibration_ctx.current_state = .CALIBRATION_DRY_WAIT ∧
     get_calibration_status r.module = false ∧
     r.module.current_button_state = .BUTTON_RELEASED ∧
     r.flash = flash) := by
  intro r
  have hstep : r = _ := complete_invalid_step nvm inp m flash hstate hinvalid
  rw [hstep]
  exact ⟨rfl, rfl, rfl, rfl, rfl⟩

/-- C4 at the spec's values dry = 3800, wet = 4000, with the completion flag
set and the prompt flag armed beforehand. -/
theorem complete_invalid_tick_witness :
    (let m : CalibrationModule :=
      { calibration_ctx :=
          { current_state := .CALIBRATION_COMPLETE, dry_calibration_value := 3800,
            wet_calibration_value := 4000, calibration_attempts := 0 }
        calibration_complete := true
        current_button_state := .BUTTON_PRESSED }
     m.calibration_ctx.current_state = .CALIBRATION_COMPLETE ∧
     m.calibration_ctx.dry_calibration_value ≤ m.calibration_ctx.wet_calibration_value ∧
     (let r := calibration_process working_nvm ⟨4000, false, false⟩ m erased_record
      r.ret = false ∧
      r.module.calibration_ctx.current_state = .CALIBRATION_DRY_WAIT ∧
      get_calibration_status r.module = false ∧
      r.module.current_button_state = .BUTTON_RELEASED ∧
      r.flash = erased_record)) :=
  ⟨rfl, by decide,
    complete_invalid_tick working_nvm ⟨4000, false, false⟩ _ erased_record rfl (by decide)⟩

/-- C6: a calibration_process tick changes the flash only when the state at
entry is Complete with wet < dry; otherwise the flash is unchanged.  When it
does write, the flash is the result of erasing the row and writing the record
data_to_save of the context, a record with wet < dry and the magic constant. -/
theorem storage_written_only_when_valid {Flash : Type} (nvm : NvmModel Flash)
    (inp : TickInput) (m : CalibrationModule) (flash : Flash) :
    (let r := calibration_process nvm inp m flash
     let valid := m.calibration_ctx.current_state = .CALIBRATION_COMPLETE ∧
       m.calibration_ctx.wet_calibration_value < m.calibration_ctx.dry_calibration_value
     (¬ valid → r.flash = flash) ∧
     (r.flash ≠ flash → valid) ∧
     (valid →
       r.flash = nvm.NVMCTRL_PageWrite (data_to_save m.calibration_ctx)
         CALIBRATION_FLASH_ADDRESS (nvm.NVMCTRL_RowErase (row_address nvm) flash) ∧
       (data_to_save m.calibration_ctx).wet_value < (data_to_save m.calibration_ctx).dry_value ∧
       (data_to_save m.calibration_ctx).magic_number = CALIBRATION_MAGIC_NUMBER)) := by
  intro r valid
  have hkeep : ¬ valid → r.flash = flash := by
    intro hnot
    simp only [r, calibration_process]
    split
    · split <;> [split; skip] <;> rfl
    · split <;> [split; skip] <;> rfl
    · rename_i hstate
      split
      · rename_i hlt
        exact absurd ⟨hstate, hlt⟩ hnot
      · rfl
    · rfl
  refine ⟨hkeep, fun hne => by_contra fun hnot => hne (hkeep hnot), ?_⟩
  rintro ⟨hstate, hlt⟩
  have hstep : r = _ := complete_valid_step nvm inp m flash hstate hlt
  rw [hstep]
  exact ⟨save_flash_eq nvm m.calibration_ctx flash, hlt, rfl⟩

/-- C7: postcondition of calibration_init.  With a stored record whose magic is
CALIBRATION_MAGIC_NUMBER, dry and wet are the stored values, the state is
Complete and get_calibration_status is true; otherwise the state is DryWait,
dry = wet = 0 and get_calibration_status is false.  In both cases attempts = 0
and the prompt flag is Released. -/
theorem calibration_init_post {Flash : Type} (nvm : NvmModel Flash)
    (boot : CalibrationModule) (flash : Flash) :
    (let stored := nvm.memcpy_record CALIBRATION_FLASH_ADDRESS flash
     let m := calibration_init nvm boot flash
     (stored.magic_number = CALIBRATION_MAGIC_NUMBER →
       m.calibration_ctx.dry_calibration_value = stored.dry_value ∧
       m.calibration_ctx.wet_calibration_value = stored.wet_value ∧
       m.calibration_ctx.current_state = .CALIBRATION_COMPLETE ∧
       get_calibration_status m = true) ∧
     (stored.magic_number ≠ CALIBRATION_MAGIC_NUMBER →
       m.calibration_ctx.current_state = .CALIBRATION_DRY_WAIT ∧
       m.calibration_ctx.dry_calibration_value = 0 ∧
       m.calibration_ctx.wet_calibration_value = 0 ∧
       get_calibration_status m = false) ∧
     m.calibration_ctx.calibration_attempts = 0 ∧
     m.current_button_state = .BUTTON_RELEASED) := by
  intro stored m
  by_cases hmagic : stored.magic_number = CALIBRATION_MAGIC_NUMBER
  · have hm : m = _ := calibration_init_stored nvm boot flash hmagic
    rw [hm]
    exact ⟨fun _ => ⟨rfl, rfl, rfl, rfl⟩, fun hne => absurd hmagic hne, rfl, rfl⟩
  · have hm : m = _ := calibration_init_fresh nvm boot flash hmagic
    rw [hm]
    exact ⟨fun heq => absurd heq hmagic, fun _ => ⟨rfl, rfl, rfl, rfl⟩, rfl, rfl⟩

/-- C8: store round trip.  save_calibration_data returns true exactly when the
record read back has the magic constant and the saved dry and wet; on storage
that retains what is written it returns true, and load_calibration_data on the
flash it leaves returns true and puts the saved dry and wet into the context. -/
theorem store_round_trip {Flash : Type} (nvm : NvmModel Flash)
    (ctx any : CalibrationContext) (flash : Flash) :
    (let saved := save_calibration_data nvm ctx flash
     let readback := nvm.memcpy_record CALIBRATION_FLASH_ADDRESS saved.2
     (saved.1 = true ↔
       readback.magic_number = CALIBRATION_MAGIC_NUMBER ∧
       readback.dry_value = ctx.dry_calibration_value ∧
       readback.wet_value = ctx.wet_calibration_value) ∧
     (Retains nvm →
       saved.1 = true ∧
       load_calibration_data nvm any saved.2 =
         (true, { any with
                   dry_calibration_value := ctx.dry_calibration_value
                   wet_calibration_value := ctx.wet_calibration_value }))) := by
  intro saved readback
  refine ⟨?_, fun hret => ?_⟩
  · have hrb : readback = nvm.memcpy_record CALIBRATION_FLASH_ADDRESS
        (nvm.NVMCTRL_PageWrite (data_to_save ctx) CALIBRATION_FLASH_ADDRESS
          (nvm.NVMCTRL_RowErase (row_address nvm) flash)) := by
      simp only [readback, saved, save_flash_eq]
    rw [hrb]
    simp only [saved, save_calibration_data]
    split
    · rename_i h
      exact ⟨fun _ => h, fun _ => rfl⟩
    · rename_i h
      exact ⟨fun hf => by simp at hf, fun hc => absurd hc h⟩
  · have hsave := save_retained nvm hret ctx flash
    refine ⟨hsave.1, ?_⟩
    simp only [load_calibration_data]
    have hrb2 : nvm.memcpy_record CALIBRATION_FLASH_ADDRESS saved.2 = data_to_save ctx := hsave.2
    rw [hrb2]
    simp [data_to_save]

/-- C8 on a working flash holding an older record, saving dry = 3800 and
wet = 1200. -/
theorem store_round_trip_witness :
    Retains working_nvm ∧
    (let ctx : CalibrationContext :=
      { current_state := .CALIBRATION_COMPLETE, dry_calibration_value := 3800,
        wet_calibration_value := 1200, calibration_attempts := 0 }
     let old : FlashRecord :=
      { dry_value := 3000, wet_value := 1000, magic_number := CALIBRATION_MAGIC_NUMBER }
     let saved := save_calibration_data working_nvm ctx old
     saved.1 = true ∧
     load_calibration_data working_nvm boot_module.calibration_ctx saved.2 =
       (true, { boot_module.calibration_ctx with
                 dry_calibration_value := ctx.dry_calibration_value
                 wet_calibration_value := ctx.wet_calibration_value })) :=
  ⟨retains_working_nvm,
    (store_round_trip working_nvm _ boot_module.calibration_ctx
      { dry_value := 3000, wet_value := 1000, magic_number := CALIBRATION_MAGIC_NUMBER }).2
      retains_working_nvm⟩

/-- C9: load_calibration_data returns true exactly when the stored magic
equals CALIBRATION_MAGIC_NUMBER = 0xCA11B8A7.  On true the context receives the
stored dry and wet; on false the context is unchanged, whatever dry and wet are
stored; current_state and attempts are unchanged either way. -/
theorem load_iff_magic {Flash : Type} (nvm : NvmModel Flash)
    (ctx : CalibrationContext) (flash : Flash) :
    (let stored := nvm.memcpy_record CALIBRATION_FLASH_ADDRESS flash
     let r := load_calibration_data nvm ctx flash
     CALIBRATION_MAGIC_NUMBER = 0xCA11B8A7 ∧
     (r.1 = true ↔ stored.magic_number = CALIBRATION_MAGIC_NUMBER) ∧
     (r.1 = true →
       r.2.dry_calibration_value = stored.dry_value ∧
       r.2.wet_calibration_value = stored.wet_value) ∧
     (r.1 = false → r.2 = ctx) ∧
     r.2.current_state = ctx.current_state ∧
     r.2.calibration_attempts = ctx.calibration_attempts) := by
  intro stored r
  by_cases hmagic : stored.magic_number = CALIBRATION_MAGIC_NUMBER
  · have hr : r = (true, { ctx with
        dry_calibration_value := stored.dry_value
        wet_calibration_value := stored.wet_value }) := by
      simp only [r, load_calibration_data]
      rw [if_pos hmagic]
    rw [hr]
    exact ⟨rfl, ⟨fun _ => hmagic, fun _ => rfl⟩, fun _ => ⟨rfl, rfl⟩,
      fun h => by simp at h, rfl, rfl⟩
  · have hr : r = (false, ctx) := by
      simp only [r, load_calibration_data]
      rw [if_neg hmagic]
    rw [hr]
    exact ⟨rfl, ⟨fun h => by simp at h, fun h => absurd h hmagic⟩, fun h => by simp at h,
      fun _ => rfl, rfl, rfl⟩

/-- C10: for wet < dry with dry in the u16 range (so for all u16 raw, dry, wet
with wet < dry), moisture_sensor_calibrate sets moisture_percentage to 0 when
raw >= dry (raw = dry included), to 100 when raw <= wet, and otherwise to the
truncated int quotient (raw - dry) * 100 / (wet - dry), which equals the floor
of (dry - raw) * 100 / (dry - wet) and lies in [0, 99]. -/
theorem calibrate_valid_endpoints (context : MoistureSensorContext) (dry wet : Nat)
    (hdry : dry < 65536) (hwd : wet < dry) :
    (dry ≤ context.moisture_raw_value →
      moisture_sensor_calibrate context dry wet
        = some { context with moisture_percentage := 0 }) ∧
    (context.moisture_raw_value ≤ wet →
      moisture_sensor_calibrate context dry wet
        = some { context with moisture_percentage := 100 }) ∧
    (wet < context.moisture_raw_value → context.moisture_raw_value < dry →
      moisture_sensor_calibrate context dry wet
        = some { context with
            moisture_percentage :=
              to_uint16 (Int.tdiv (((context.moisture_raw_value : Int) - (dry : Int)) * 100)
                ((wet : Int) - (dry : Int))) } ∧
      Int.tdiv (((context.moisture_raw_value : Int) - (dry : Int)) * 100)
          ((wet : Int) - (dry : Int))
        = (((dry - context.moisture_raw_value) * 100 / (dry - wet) : Nat) : Int) ∧
      to_uint16 (Int.tdiv (((context.moisture_raw_value : Int) - (dry : Int)) * 100)
          ((wet : Int) - (dry : Int)))
        = (dry - context.moisture_raw_value) * 100 / (dry - wet) ∧
      (dry - context.moisture_raw_value) * 100 / (dry - wet) ≤ 99) := by
  refine ⟨fun hge => ?_, fun hle => ?_, fun hlo hhi => ?_⟩
  · simp only [moisture_sensor_calibrate]
    rw [if_pos hge]
  · simp only [moisture_sensor_calibrate]
    rw [if_neg (by omega), if_pos hle]
  · have hq := interpolation_quotient context.moisture_raw_value dry wet hlo hhi
    have hu : to_uint16 (Int.tdiv (((context.moisture_raw_value : Int) - (dry : Int)) * 100)
          ((wet : Int) - (dry : Int)))
        = (dry - context.moisture_raw_value) * 100 / (dry - wet) := by
      have hb := interpolation_bound context.moisture_raw_value dry wet hlo hhi
      rw [hq]
      simp only [to_uint16]
      generalize (dry - context.moisture_raw_value) * 100 / (dry - wet) = q at hb
      omega
    refine ⟨?_, hq, hu, interpolation_bound context.moisture_raw_value dry wet hlo hhi⟩
    rw [hu]
    exact calibrate_interpolation context dry wet hdry hlo hhi

/-- C10 at raw = 2500 between wet = 1200 and dry = 3800: the result is 50. -/
theorem calibrate_valid_endpoints_witness :
    3800 < 65536 ∧ 1200 < 3800 ∧
    moisture_sensor_calibrate (sample_context 2500) 3800 1200
      = some { sample_context 2500 with moisture_percentage := 50 } ∧
    (1200 < (sample_context 2500).moisture_raw_value →
      (sample_context 2500).moisture_raw_value < 3800 →
      moisture_sensor_calibrate (sample_context 2500) 3800 1200
        = some { sample_context 2500 with
            moisture_percentage :=
              to_uint16 (Int.tdiv
                ((((sample_context 2500).moisture_raw_value : Int) - ((3800 : Nat) : Int)) * 100)
                (((1200 : Nat) : Int) - ((3800 : Nat) : Int))) } ∧
      Int.tdiv ((((sample_context 2500).moisture_raw_value : Int) - ((3800 : Nat) : Int)) * 100)
          (((1200 : Nat) : Int) - ((3800 : Nat) : Int))
        = (((3800 - (sample_context 2500).moisture_raw_value) * 100 / (3800 - 1200) : Nat)
            : Int) ∧
      to_uint16 (Int.tdiv
          ((((sample_context 2500).moisture_raw_value : Int) - ((3800 : Nat) : Int)) * 100)
          (((1200 : Nat) : Int) - ((3800 : Nat) : Int)))
        = (3800 - (sample_context 2500).moisture_raw_value) * 100 / (3800 - 1200) ∧
      (3800 - (sample_context 2500).moisture_raw_value) * 100 / (3800 - 1200) ≤ 99) :=
  ⟨by decide, by decide, by decide,
    (calibrate_valid_endpoints (sample_context 2500) 3800 1200 (by decide) (by decide)).2.2⟩

/-- C11: for every raw, dry and wet with dry in the u16 range, whether or not
wet < dry, moisture_sensor_calibrate returns the context with
moisture_percentage set to a value in [0, 100] and every other field as it
was. -/
theorem calibrate_percentage_in_range (context : MoistureSensorContext) (dry wet : Nat)
    (hdry : dry < 65536) :
    ∃ p : Nat, p ≤ 100 ∧
      moisture_sensor_calibrate context dry wet
        = some { context with moisture_percentage := p } := by
  by_cases hge : dry ≤ context.moisture_raw_value
  · refine ⟨0, by omega, ?_⟩
    simp only [moisture_sensor_calibrate]
    rw [if_pos hge]
  · by_cases hle : context.moisture_raw_value ≤ wet
    · refine ⟨100, le_refl _, ?_⟩
      simp only [moisture_sensor_calibrate]
      rw [if_neg hge, if_pos hle]
    · have hlo : wet < context.moisture_raw_value := by omega
      have hhi : context.moisture_raw_value < dry := by omega
      have hb := interpolation_bound context.moisture_raw_value dry wet hlo hhi
      exact ⟨_, by omega, calibrate_interpolation context dry wet hdry hlo hhi⟩

/-- C11 at raw = 2000 with the endpoints the wrong way round, dry = 1200 and
wet = 3800. -/
theorem calibrate_percentage_in_range_witness :
    1200 < 65536 ∧
    ∃ p : Nat, p ≤ 100 ∧
      moisture_sensor_calibrate (sample_context 2000) 1200 3800
        = some { sample_context 2000 with moisture_percentage := p } :=
  ⟨by decide, calibrate_percentage_in_range (sample_context 2000) 1200 3800 (by decide)⟩


/-- C12 (counterexample): after pump_init, pump_activate(100) at clock 0 and
pump_deactivate at clock 1000, the total is 13907/2400 mL, the flow rate at the
stored duty 1199/1200 over one second, and not get_flow_rate_ml_per_sec(100)
times one second, which is 29/5 mL. -/
theorem full_duty_round_trip_differs :
    pump_get_total_volume_ml 1000
        (pump_deactivate 1000 1000 (pump_activate 100 0 0 (pump_init pump_boot)))
      = 13907 / 2400 ∧
    get_flow_rate_ml_per_sec 100 * ((1000 : ℚ) / 1000) = 29 / 5 ∧
    pump_get_total_volume_ml 1000
        (pump_deactivate 1000 1000 (pump_activate 100 0 0 (pump_init pump_boot)))
      ≠ get_flow_rate_ml_per_sec 100 * ((1000 : ℚ) / 1000) := by
  have h := round_trip_total pump_boot 100 0 1000 1000 (by norm_num) (by norm_num)
  have hmod : (0 + 1000) % 4294967296 = 1000 := by norm_num
  rw [hmod, new_cc_value_full] at h
  have hflow : get_flow_rate_ml_per_sec (((1199 : ℕ) : ℚ) * 100 / 1200) = 13907 / 2400 := by
    norm_num [get_flow_rate_ml_per_sec, flow_rate_of_table, calibration_table, scan_table,
      interpolate, abs_lt]
  have hfull : get_flow_rate_ml_per_sec 100 = 29 / 5 := by
    norm_num [get_flow_rate_ml_per_sec, flow_rate_of_table, calibration_table]
  rw [hflow] at h
  rw [h, hfull]
  norm_num

/-- C12 (amended): after pump_init, pump_activate(d) at clock t0 and
pump_deactivate at clock t0 + t (mod 2^32), pump_get_total_volume_ml returns
the flow rate at the duty percentage of the stored compare value,
cc * 100 / (PERIOD + 1), times t / 1000; that duty is d itself, and the total
is get_flow_rate_ml_per_sec(d) * (t / 1000), whenever d * (PERIOD + 1) / 100 is
a whole number not above PERIOD. -/
theorem round_trip_at_stored_duty (boot : PumpModule) (d : ℚ) (t0 t now : Nat)
    (ht0 : t0 < 4294967296) (ht : t < 4294967296) :
    pump_get_total_volume_ml now
        (pump_deactivate ((t0 + t) % 4294967296) ((t0 + t) % 4294967296)
          (pump_activate d t0 t0 (pump_init boot)))
      = get_flow_rate_ml_per_sec
          (get_current_duty_percentage (pump_activate d t0 t0 (pump_init boot)))
        * ((t : ℚ) / 1000) ∧
    get_current_duty_percentage (pump_activate d t0 t0 (pump_init boot))
      = (new_cc_value d : ℚ) * 100 / ((PUMP_PWM_PERIOD + 1 : ℕ) : ℚ) ∧
    (∀ n : ℕ, n ≤ PUMP_PWM_PERIOD → d * ((PUMP_PWM_PERIOD + 1 : ℕ) : ℚ) / 100 = n →
      get_current_duty_percentage (pump_activate d t0 t0 (pump_init boot)) = d ∧
      pump_get_total_volume_ml now
          (pump_deactivate ((t0 + t) % 4294967296) ((t0 + t) % 4294967296)
            (pump_activate d t0 t0 (pump_init boot)))
        = get_flow_rate_ml_per_sec d * ((t : ℚ) / 1000)) := by
  have hper : ((PUMP_PWM_PERIOD + 1 : ℕ) : ℚ) = 1200 := by norm_num [PUMP_PWM_PERIOD]
  have hduty : get_current_duty_percentage (pump_activate d t0 t0 (pump_init boot))
      = (new_cc_value d : ℚ) * 100 / 1200 := by
    rw [get_current_duty_percentage_eq, (pump_activate_cc d t0 t0 (pump_init boot)).1]
  have htotal := round_trip_total boot d t0 t now ht0 ht
  refine ⟨by rw [hduty]; exact htotal, by rw [hper]; exact hduty, ?_⟩
  intro n hn hd
  rw [hper] at hd
  have hcc : new_cc_value d = n :=
    new_cc_value_of_twelfth d n hn (by linarith)
  have hq : (new_cc_value d : ℚ) * 100 / 1200 = d := by
    rw [hcc]
    linarith
  refine ⟨by rw [hduty]; exact hq, ?_⟩
  rw [htotal, hq]

/-- C12 (amended) at d = 50, started 16 ms before the clock wraps and stopped
1000 ms later: the total is 2.5 mL/s times one second. -/
theorem round_trip_at_stored_duty_witness :
    0xFFFFFFF0 < 4294967296 ∧ 1000 < 4294967296 ∧
    pump_get_total_volume_ml 5000
        (pump_deactivate ((0xFFFFFFF0 + 1000) % 4294967296) ((0xFFFFFFF0 + 1000) % 4294967296)
          (pump_activate 50 0xFFFFFFF0 0xFFFFFFF0 (pump_init pump_boot)))
      = get_flow_rate_ml_per_sec
          (get_current_duty_percentage
            (pump_activate 50 0xFFFFFFF0 0xFFFFFFF0 (pump_init pump_boot)))
        * (((1000 : ℕ) : ℚ) / 1000) :=
  ⟨by decide, by decide,
    (round_trip_at_stored_duty pump_boot 50 0xFFFFFFF0 1000 5000 (by decide) (by decide)).1⟩

/-- C13: for 32-bit clock values start and now, the elapsed time of
pump_stop_tracking and pump_get_total_volume_ml is (now - start) mod 2^32; in
the wrapped branch (now < start) the sum (0xFFFFFFFF - start) + now + 1 taken
without any reduction stays below 2^32 and is the result; start = 0xFFFFFFF0,
now = 0x10 give 32.  Both functions use this value for an open interval. -/
theorem elapsed_is_modular_difference (start now : Nat) (s : PumpModule)
    (hs : start < 4294967296) (hn : now < 4294967296) :
    ((elapsed_ms_between start now : ℤ) = ((now : ℤ) - (start : ℤ)) % 4294967296) ∧
    (start ≤ now → elapsed_ms_between start now = now - start) ∧
    (now < start →
      (0xFFFFFFFF - start) + now + 1 < 4294967296 ∧
      elapsed_ms_between start now = (0xFFFFFFFF - start) + now + 1) ∧
    elapsed_ms_between 0xFFFFFFF0 0x00000010 = 32 ∧
    (s.is_tracking_pump_run = true →
      (pump_stop_tracking now s).total_volume_dispensed_ml =
        s.total_volume_dispensed_ml +
          get_flow_rate_ml_per_sec (get_current_duty_percentage s) *
            ((elapsed_ms_between s.pump_run_start_ms now : ℚ) / 1000) ∧
      pump_get_total_volume_ml now s =
        s.total_volume_dispensed_ml +
          get_flow_rate_ml_per_sec (get_current_duty_percentage s) *
            ((elapsed_ms_between s.pump_run_start_ms now : ℚ) / 1000)) := by
  refine ⟨?_, ?_, ?_, ?_, ?_⟩
  · rw [elapsed_ms_between_eq start now hs hn]
    omega
  · intro h
    exact elapsed_ms_between_le start now h hn
  · intro h
    refine ⟨by omega, ?_⟩
    rw [elapsed_ms_between_eq start now hs hn]
    omega
  · decide
  · intro htr
    rw [pump_stop_tracking_open now s htr]
    simp [pump_get_total_volume_ml, htr]

/-- C13 at the wrap-around pair start = 0xFFFFFFF0, now = 0x10. -/
theorem elapsed_is_modular_difference_witness :
    0xFFFFFFF0 < 4294967296 ∧ 0x00000010 < 4294967296 ∧
    ((elapsed_ms_between 0xFFFFFFF0 0x00000010 : ℤ)
      = (((0x00000010 : ℕ) : ℤ) - ((0xFFFFFFF0 : ℕ) : ℤ)) % 4294967296) ∧
    elapsed_ms_between 0xFFFFFFF0 0x00000010 = 32 :=
  ⟨by decide, by decide,
    (elapsed_is_modular_difference 0xFFFFFFF0 0x00000010 pump_boot (by decide) (by decide)).1,
    by decide⟩

/-- C14: after pump_init, pump_activate(d1) at clock t0, pump_activate(d2) at
clock t1 with a compare value that is non-zero and differs from the first, and
pump_deactivate at clock t2 (t0 <= t1 <= t2): each pump_activate stores the
compare value new_cc_value(d_i), so that the duty in effect during interval i is
duty_i = new_cc_value(d_i) * 100 / (PERIOD + 1).  The second pump_activate
closes the first interval at the old rate, the accumulator becoming
flow(duty1) * (t1 - t0) / 1000, and opens a new interval at t1.  After the stop
the total is flow(duty1) * (t1 - t0) / 1000 + flow(duty2) * (t2 - t1) / 1000, no
interval is open and pump_get_total_volume_ml returns that total. -/
theorem duty_change_closes_interval (boot : PumpModule) (d1 d2 : ℚ) (t0 t1 t2 now : Nat)
    (h01 : t0 ≤ t1) (h12 : t1 ≤ t2) (h2 : t2 < 4294967296)
    (hne : new_cc_value d2 ≠ new_cc_value d1) (hpos : new_cc_value d2 > 0) :
    (let first := pump_activate d1 t0 t0 (pump_init boot)
     let second := pump_activate d2 t1 t1 first
     let stopped := pump_deactivate t2 t2 second
     let duty1 : ℚ := (new_cc_value d1 : ℚ) * 100 / ((PUMP_PWM_PERIOD + 1 : ℕ) : ℚ)
     let duty2 : ℚ := (new_cc_value d2 : ℚ) * 100 / ((PUMP_PWM_PERIOD + 1 : ℕ) : ℚ)
     (first.current_pump_cc_value = new_cc_value d1 ∧
       get_current_duty_percentage first = duty1) ∧
     (second.current_pump_cc_value = new_cc_value d2 ∧
       get_current_duty_percentage second = duty2 ∧
       second.total_volume_dispensed_ml
         = get_flow_rate_ml_per_sec duty1 * (((t1 - t0 : ℕ) : ℚ) / 1000) ∧
       second.is_tracking_pump_run = true ∧ second.pump_run_start_ms = t1 ∧
       second.pump_is_active = true) ∧
     (stopped.total_volume_dispensed_ml
         = get_flow_rate_ml_per_sec duty1 * (((t1 - t0 : ℕ) : ℚ) / 1000)
           + get_flow_rate_ml_per_sec duty2 * (((t2 - t1 : ℕ) : ℚ) / 1000) ∧
       stopped.current_pump_cc_value = 0 ∧
       stopped.is_tracking_pump_run = false ∧ stopped.pump_is_active = false ∧
       pump_get_total_volume_ml now stopped = stopped.total_volume_dispensed_ml)) := by
  intro first second stopped duty1 duty2
  have hper : ((PUMP_PWM_PERIOD + 1 : ℕ) : ℚ) = 1200 := by norm_num [PUMP_PWM_PERIOD]
  have hcc1 : first.current_pump_cc_value = new_cc_value d1 :=
    (pump_activate_cc d1 t0 t0 (pump_init boot)).1
  have hcc2 : second.current_pump_cc_value = new_cc_value d2 :=
    (pump_activate_cc d2 t1 t1 first).1
  have hq1 : get_current_duty_percentage first = duty1 := by
    rw [get_current_duty_percentage_eq, hcc1]
    simp only [duty1, hper]
  have hq2 : get_current_duty_percentage second = duty2 := by
    rw [get_current_duty_percentage_eq, hcc2]
    simp only [duty2, hper]
  have hsecond := second_activation_state boot d1 d2 t0 t1 h01 (by omega) hne hpos
  have htotal := two_interval_total boot d1 d2 t0 t1 t2 h01 h12 h2
  have hstop := pump_calls_consistent
    [.activate d1 t0 t0, .activate d2 t1 t1, .deactivate t2 t2] (pump_init boot)
    (pump_init_consistent boot)
  have hcc : stopped.current_pump_cc_value = 0 := by
    simp only [stopped, pump_deactivate]
    rw [(pump_activate_cc 0 t2 t2 _).1, new_cc_value_zero]
  have hact : stopped.pump_is_active = false := by
    have h2' := hstop.2
    simp only [pump_calls, pump_call] at h2'
    cases hb : stopped.pump_is_active with
    | false => rfl
    | true =>
      have hgt := h2'.mp hb
      rw [hcc] at hgt
      exact absurd hgt (by decide)
  have htr : stopped.is_tracking_pump_run = false := by
    have h1' := hstop.1
    simp only [pump_calls, pump_call] at h1'
    rw [← hact]
    exact h1'
  refine ⟨⟨hcc1, hq1⟩, ⟨hcc2, hq2, ?_, hsecond.2.1, hsecond.2.2.1, hsecond.2.2.2⟩,
    ⟨?_, hcc, htr, hact, ?_⟩⟩
  · simp only [duty1, hper]
    exact hsecond.1
  · simp only [duty1, duty2, hper]
    exact htotal
  · simp [pump_get_total_volume_ml, htr]

/-- C14 with 50 % from clock 0, 100 % from clock 2000 and the stop at clock
5000: the compare values are 600 and 1199, the accumulator is 5 mL after the
change (2.5 mL/s for 2 s) and 17907/800 mL after the stop (13907/2400 mL/s for
a further 3 s). -/
theorem duty_change_closes_interval_witness :
    0 ≤ 2000 ∧ 2000 ≤ 5000 ∧ 5000 < 4294967296 ∧
    new_cc_value 100 ≠ new_cc_value 50 ∧ new_cc_value 100 > 0 ∧
    (pump_activate 50 0 0 (pump_init pump_boot)).current_pump_cc_value = 600 ∧
    (pump_activate 100 2000 2000
      (pump_activate 50 0 0 (pump_init pump_boot))).current_pump_cc_value = 1199 ∧
    (pump_activate 100 2000 2000
      (pump_activate 50 0 0 (pump_init pump_boot))).total_volume_dispensed_ml = 5 ∧
    (pump_deactivate 5000 5000
      (pump_activate 100 2000 2000
        (pump_activate 50 0 0 (pump_init pump_boot)))).total_volume_dispensed_ml
      = 17907 / 800 := by
  have hne : new_cc_value 100 ≠ new_cc_value 50 := by
    rw [new_cc_value_half, new_cc_value_full]
    decide
  have hpos : new_cc_value 100 > 0 := by
    rw [new_cc_value_full]
    decide
  have h := duty_change_closes_interval pump_boot 50 100 0 2000 5000 0
    (by decide) (by decide) (by decide) hne hpos
  have hper : ((PUMP_PWM_PERIOD + 1 : ℕ) : ℚ) = 1200 := by norm_num [PUMP_PWM_PERIOD]
  simp only [hper, new_cc_value_half, new_cc_value_full, flow_rate_at_600,
    flow_rate_at_1199] at h
  refine ⟨by decide, by decide, by decide, hne, hpos, h.1.1, h.2.1.1, ?_, ?_⟩
  · rw [h.2.1.2.2.1]
    norm_num
  · rw [h.2.2.1]
    norm_num

/-- C15: pump_get_total_volume_ml changes no variable of the module (the call
leaves the state as it is); it returns the accumulator when no interval is
open and accumulator + flow(current duty) * elapsed / 1000 when one is open,
and in both cases the value the accumulator holds after pump_stop_tracking at
the same clock reading. -/
theorem get_total_volume_is_projection (now : Nat) (s : PumpModule) :
    pump_call (.get_total_volume_ml now) s = s ∧
    (s.is_tracking_pump_run = false →
      pump_get_total_volume_ml now s = s.total_volume_dispensed_ml) ∧
    (s.is_tracking_pump_run = true →
      pump_get_total_volume_ml now s =
        s.total_volume_dispensed_ml +
          get_flow_rate_ml_per_sec (get_current_duty_percentage s) *
            ((elapsed_ms_between s.pump_run_start_ms now : ℚ) / 1000)) ∧
    pump_get_total_volume_ml now s
      = (pump_stop_tracking now s).total_volume_dispensed_ml := by
  refine ⟨rfl, ?_, ?_, ?_⟩
  · intro h
    simp [pump_get_total_volume_ml, h]
  · intro h
    simp [pump_get_total_volume_ml, h]
  · cases h : s.is_tracking_pump_run with
    | false =>
      rw [pump_stop_tracking_closed now s h]
      simp [pump_get_total_volume_ml, h]
    | true =>
      rw [pump_stop_tracking_open now s h]
      simp [pump_get_total_volume_ml, h]

/-- C16: pump_reset_total_volume in every state reached from pump_init by
public calls.  Afterwards total_volume_dispensed_ml is 0 and pump_is_active and
current_pump_cc_value are unchanged; an interval that was open is open with its
start at the clock value read, so that pump_get_total_volume_ml returns 0 at
that clock value and flow(current duty) * t / 1000 at a reading t ms later; if
none was open none is opened. -/
theorem reset_restarts_open_interval (boot : PumpModule) (calls : List PumpCall)
    (tick_stop tick_start t : Nat)
    (htick : tick_start < 4294967296) (ht : t < 4294967296) :
    (let s := pump_calls calls (pump_init boot)
     let r := pump_reset_total_volume tick_stop tick_start s
     r.total_volume_dispensed_ml = 0 ∧
     r.pump_is_active = s.pump_is_active ∧
     r.current_pump_cc_value = s.current_pump_cc_value ∧
     (s.is_tracking_pump_run = true →
       r.is_tracking_pump_run = true ∧
       r.pump_run_start_ms = tick_start ∧
       pump_get_total_volume_ml tick_start r = 0 ∧
       pump_get_total_volume_ml ((tick_start + t) % 4294967296) r
         = get_flow_rate_ml_per_sec (get_current_duty_percentage s) * ((t : ℚ) / 1000)) ∧
     (s.is_tracking_pump_run = false → r.is_tracking_pump_run = false)) := by
  intro s r
  have hcons : PumpConsistent s :=
    pump_calls_consistent calls (pump_init boot) (pump_init_consistent boot)
  cases htr : s.is_tracking_pump_run with
  | false =>
    have hr : r = _ := pump_reset_closed tick_stop tick_start s htr
    rw [hr]
    simp [htr]
  | true =>
    have hact : s.pump_is_active = true := by
      rw [← hcons.1]
      exact htr
    have hr : r = _ := pump_reset_open tick_stop tick_start s hact htr
    rw [hr]
    simp [pump_get_total_volume_ml, elapsed_ms_between_self,
      elapsed_ms_between_add tick_start t htick ht, get_current_duty_percentage_eq]

/-- C16 on a pump started at 50 % at clock 100 (compare value 600, 2.5 mL/s),
reset at clock 700 and read 250 ms later: the interval is open from 700, the
total is 0 at the reset and 5/8 mL at the later reading. -/
theorem reset_restarts_open_interval_witness :
    700 < 4294967296 ∧ 250 < 4294967296 ∧
    (pump_calls [.activate 50 100 100] (pump_init pump_boot)).is_tracking_pump_run = true ∧
    (pump_reset_total_volume 700 700
      (pump_calls [.activate 50 100 100] (pump_init pump_boot))).is_tracking_pump_run = true ∧
    (pump_reset_total_volume 700 700
      (pump_calls [.activate 50 100 100] (pump_init pump_boot))).pump_run_start_ms = 700 ∧
    pump_get_total_volume_ml 700
      (pump_reset_total_volume 700 700
        (pump_calls [.activate 50 100 100] (pump_init pump_boot))) = 0 ∧
    pump_get_total_volume_ml ((700 + 250) % 4294967296)
      (pump_reset_total_volume 700 700
        (pump_calls [.activate 50 100 100] (pump_init pump_boot))) = 5 / 8 := by
  have hrun : (pump_calls [.activate 50 100 100] (pump_init pump_boot)).is_tracking_pump_run
      = true := by
    simp only [pump_calls, pump_call]
    rw [first_activation, if_pos (by rw [new_cc_value_half]; decide)]
  have hduty : get_current_duty_percentage
      (pump_calls [.activate 50 100 100] (pump_init pump_boot))
      = ((600 : ℕ) : ℚ) * 100 / 1200 := by
    simp only [pump_calls, pump_call]
    rw [get_current_duty_percentage_eq, (pump_activate_cc 50 100 100 _).1, new_cc_value_half]
  have h := reset_restarts_open_interval pump_boot [.activate 50 100 100] 700 700 250
    (by decide) (by decide)
  have hopen := h.2.2.2.1 hrun
  refine ⟨by decide, by decide, hrun, hopen.1, hopen.2.1, hopen.2.2.1, ?_⟩
  rw [hopen.2.2.2, hduty, flow_rate_at_600]
  norm_num

/-- C17: after pump_init and any sequence of public calls, with any arguments
and clock values, is_tracking_pump_run = pump_is_active, and pump_is_active
(the value of pump_get_status) is true exactly when current_pump_cc_value > 0. -/
theorem status_flags_agree (boot : PumpModule) (calls : List PumpCall) :
    (pump_calls calls (pump_init boot)).is_tracking_pump_run
      = (pump_calls calls (pump_init boot)).pump_is_active ∧
    ((pump_calls calls (pump_init boot)).pump_is_active = true ↔
      (pump_calls calls (pump_init boot)).current_pump_cc_value > 0) ∧
    (pump_get_status (pump_calls calls (pump_init boot)) = true ↔
      (pump_calls calls (pump_init boot)).current_pump_cc_value > 0) ∧
    ¬ ((pump_calls calls (pump_init boot)).is_tracking_pump_run = true ∧
        (pump_calls calls (pump_init boot)).pump_is_active = false) ∧
    ¬ ((pump_calls calls (pump_init boot)).pump_is_active = true ∧
        (pump_calls calls (pump_init boot)).is_tracking_pump_run = false) := by
  have h := pump_calls_consistent calls (pump_init boot) (pump_init_consistent boot)
  obtain ⟨htr, hcc⟩ := h
  refine ⟨htr, hcc, hcc, ?_, ?_⟩
  · rw [htr]
    simp
  · rw [htr]
    simp

/-- C18: over exact arithmetic and the built-in table, get_flow_rate_ml_per_sec(d)
is 0.8 * (d / 20) for d <= 20 (0 at d = 0), 5.8 for d >= 100, and
r1 + (d - d1) * (r2 - r1) / (d2 - d1) for each table pair (d1, r1), (d2, r2)
that brackets d; for 20 < d < 100 the scan returns a value, so the fallback
after the loop is not reached, and no divisor is zero: the first duty is above
0.01 and consecutive duties differ. -/
theorem flow_rate_piecewise_linear (d : ℚ) :
    (d ≤ 20 → get_flow_rate_ml_per_sec d = 0.8 * (d / 20)) ∧
    get_flow_rate_ml_per_sec 0 = 0 ∧
    (100 ≤ d → get_flow_rate_ml_per_sec d = 5.8) ∧
    (20 ≤ d → d ≤ 40 →
      get_flow_rate_ml_per_sec d = 0.8 + (d - 20) * (1.9 - 0.8) / (40 - 20)) ∧
    (40 ≤ d → d ≤ 60 →
      get_flow_rate_ml_per_sec d = 1.9 + (d - 40) * (3.1 - 1.9) / (60 - 40)) ∧
    (60 ≤ d → d ≤ 80 →
      get_flow_rate_ml_per_sec d = 3.1 + (d - 60) * (4.5 - 3.1) / (80 - 60)) ∧
    (80 ≤ d → d ≤ 100 →
      get_flow_rate_ml_per_sec d = 4.5 + (d - 80) * (5.8 - 4.5) / (100 - 80)) ∧
    (20 < d → d < 100 →
      ∃ flow, scan_table calibration_table d = some flow ∧
        get_flow_rate_ml_per_sec d = flow) ∧
    (calibration_table.headD ⟨0, 0⟩).duty_cycle_percent > 0.01 ∧
    calibration_table.Chain'
      (fun p1 p2 => ¬ |p2.duty_cycle_percent - p1.duty_cycle_percent| < 0.01 ∧
        p2.duty_cycle_percent - p1.duty_cycle_percent ≠ 0) := by
  have hlow : d ≤ 20 → get_flow_rate_ml_per_sec d = 0.8 * (d / 20) := by
    intro h
    norm_num [get_flow_rate_ml_per_sec, flow_rate_of_table, calibration_table, h]
  have hhigh : 100 ≤ d → get_flow_rate_ml_per_sec d = 5.8 := by
    intro h
    have h20 : ¬ d ≤ 20 := by linarith
    norm_num [get_flow_rate_ml_per_sec, flow_rate_of_table, calibration_table, h, h20]
  have hscan : 20 < d → d < 100 →
      ∃ flow, scan_table calibration_table d = some flow ∧
        get_flow_rate_ml_per_sec d = flow := by
    intro h1 h2
    obtain ⟨v, hv⟩ := scan_table_finds
      { duty_cycle_percent := 20.0, flow_rate_ml_per_sec := 0.8 }
      [ { duty_cycle_percent := 40.0, flow_rate_ml_per_sec := 1.9 },
        { duty_cycle_percent := 60.0, flow_rate_ml_per_sec := 3.1 },
        { duty_cycle_percent := 80.0, flow_rate_ml_per_sec := 4.5 },
        { duty_cycle_percent := 100.0, flow_rate_ml_per_sec := 5.8 } ] d
      (by norm_num; exact h1.le) (by norm_num [List.getLastD_cons]; exact h2)
    refine ⟨v, hv, ?_⟩
    have hv' : scan_table calibration_table d = some v := hv
    have h20 : ¬ d ≤ 20 := by linarith
    have h100 : ¬ 100 ≤ d := by linarith
    simp only [get_flow_rate_ml_per_sec, flow_rate_of_table, hv']
    norm_num [calibration_table, h20, h100]
  refine ⟨hlow, get_flow_rate_zero, hhigh, ?_, ?_, ?_, ?_, hscan, ?_, ?_⟩
  · intro h1 h2
    rcases eq_or_lt_of_le h1 with he | hl
    · rw [hlow (by linarith), ← he]
      norm_num
    · have h20 : ¬ d ≤ 20 := by linarith
      have h100 : ¬ 100 ≤ d := by linarith
      norm_num [get_flow_rate_ml_per_sec, flow_rate_of_table, calibration_table, scan_table,
        interpolate, abs_lt, h20, h100, h1, h2]
  · intro h1 h2
    have h20 : ¬ d ≤ 20 := by linarith
    have h100 : ¬ 100 ≤ d := by linarith
    have h20' : 20 ≤ d := by linarith
    rcases eq_or_lt_of_le h1 with he | hl
    · rw [← he]
      norm_num [get_flow_rate_ml_per_sec, flow_rate_of_table, calibration_table, scan_table,
        interpolate, abs_lt]
    · have h40 : ¬ d ≤ 40 := by linarith
      norm_num [get_flow_rate_ml_per_sec, flow_rate_of_table, calibration_table, scan_table,
        interpolate, abs_lt, h20, h100, h20', h40, h1, h2]
  · intro h1 h2
    have h20 : ¬ d ≤ 20 := by linarith
    have h100 : ¬ 100 ≤ d := by linarith
    have h20' : 20 ≤ d := by linarith
    have h40' : 40 ≤ d := by linarith
    have h40 : ¬ d ≤ 40 := by linarith
    rcases eq_or_lt_of_le h1 with he | hl
    · rw [← he]
      norm_num [get_flow_rate_ml_per_sec, flow_rate_of_table, calibration_table, scan_table,
        interpolate, abs_lt]
    · have h60 : ¬ d ≤ 60 := by linarith
      norm_num [get_flow_rate_ml_per_sec, flow_rate_of_table, calibration_table, scan_table,
        interpolate, abs_lt, h20, h100, h20', h40, h40', h60, h1, h2]
  · intro h1 h2
    rcases eq_or_lt_of_le h2 with he | hl
    · rw [hhigh (by linarith), he]
      norm_num
    · have h20 : ¬ d ≤ 20 := by linarith
      have h100 : ¬ 100 ≤ d := by linarith
      have h20' : 20 ≤ d := by linarith
      have h40' : 40 ≤ d := by linarith
      have h40 : ¬ d ≤ 40 := by linarith
      have h60' : 60 ≤ d := by linarith
      have h60 : ¬ d ≤ 60 := by linarith
      rcases eq_or_lt_of_le h1 with he | hl'
      · rw [← he]
        norm_num [get_flow_rate_ml_per_sec, flow_rate_of_table, calibration_table, scan_table,
          interpolate, abs_lt]
      · have h80 : ¬ d ≤ 80 := by linarith
        norm_num [get_flow_rate_ml_per_sec, flow_rate_of_table, calibration_table, scan_table,
          interpolate, abs_lt, h20, h100, h20', h40, h40', h60, h60', h80, h1, h2.le, hl.le]
  · norm_num [calibration_table]
  · norm_num [calibration_table, abs_lt]

/-- C19: for any calibration table with ascending duty and non-decreasing flow
values, the flow values being measured rates and so not negative (the built-in
table is one), and for every d1 <= d2 with d1 at or above the first duty, the
estimate at d1 is at most the estimate at d2, over exact arithmetic.  Neither
the number of points nor an upper limit on d2 is needed. -/
theorem flow_rate_monotone (table : List PumpCalibrationPoint) (d1 d2 : ℚ)
    (hasc : table_ascending table)
    (hflow : ∀ p ∈ table, 0 ≤ p.flow_rate_ml_per_sec)
    (h12 : d1 ≤ d2) (hlo : (table.headD ⟨0, 0⟩).duty_cycle_percent ≤ d1) :
    flow_rate_of_table table d1 ≤ flow_rate_of_table table d2 := by
  cases table with
  | nil =>
    simp only [flow_rate_of_table, scan_table, List.headD_nil, List.getLastD_nil]
    split_ifs <;> first | exact le_refl _ | linarith
  | cons p rest =>
    have hfirst : 0 ≤ p.flow_rate_ml_per_sec := hflow p (List.mem_cons_self p rest)
    simp only [List.headD_cons] at hlo
    have hlast := ascending_head_le_last p rest hasc
    have hzero : (if p.duty_cycle_percent > 0.01 then
        p.flow_rate_ml_per_sec * (p.duty_cycle_percent / p.duty_cycle_percent) else 0)
        ≤ p.flow_rate_ml_per_sec := by
      split
      · rename_i hbig
        have hne : p.duty_cycle_percent ≠ 0 := by
          intro h0
          rw [h0] at hbig
          norm_num at hbig
        rw [div_self hne, mul_one]
      · exact hfirst
    simp only [flow_rate_of_table, List.headD_cons, List.getLastD_cons]
    by_cases ha : d1 ≤ p.duty_cycle_percent
    · have hd1 : d1 = p.duty_cycle_percent := le_antisymm ha hlo
      rw [if_pos ha, hd1]
      by_cases hb : d2 ≤ p.duty_cycle_percent
      · have hd2 : d2 = p.duty_cycle_percent := le_antisymm hb (hd1 ▸ h12)
        rw [if_pos hb, hd2]
      · rw [if_neg hb]
        by_cases hc : d2 ≥ (rest.getLastD p).duty_cycle_percent
        · rw [if_pos hc]
          exact le_trans hzero hlast.1
        · rw [if_neg hc]
          obtain ⟨v, hv⟩ := scan_table_finds p rest d2 (le_of_lt (not_le.mp hb)) (not_le.mp hc)
          rw [hv]
          exact le_trans hzero (scan_table_bounds p rest d2 v hasc hv).1
    · rw [if_neg ha]
      have hb : ¬ d2 ≤ p.duty_cycle_percent := fun h => ha (le_trans h12 h)
      rw [if_neg hb]
      by_cases hc1 : d1 ≥ (rest.getLastD p).duty_cycle_percent
      · rw [if_pos hc1, if_pos (le_trans hc1 h12)]
      · rw [if_neg hc1]
        obtain ⟨v, hv⟩ := scan_table_finds p rest d1 hlo (not_le.mp hc1)
        rw [hv]
        by_cases hc2 : d2 ≥ (rest.getLastD p).duty_cycle_percent
        · rw [if_pos hc2]
          exact (scan_table_bounds p rest d1 v hasc hv).2
        · rw [if_neg hc2]
          obtain ⟨v', hv'⟩ := scan_table_finds p rest d2 (le_trans hlo h12) (not_le.mp hc2)
          rw [hv']
          exact scan_table_mono p rest d1 d2 v v' hasc hlo h12 hv hv'

/-- C19 on the built-in table between 30 % and 70 %: the estimates are 27/20
and 19/5 mL/s. -/
theorem flow_rate_monotone_witness :
    table_ascending calibration_table ∧
    (∀ p ∈ calibration_table, 0 ≤ p.flow_rate_ml_per_sec) ∧
    (30 : ℚ) ≤ 70 ∧ (calibration_table.headD ⟨0, 0⟩).duty_cycle_percent ≤ 30 ∧
    get_flow_rate_ml_per_sec 30 = 27 / 20 ∧ get_flow_rate_ml_per_sec 70 = 19 / 5 ∧
    get_flow_rate_ml_per_sec 30 ≤ get_flow_rate_ml_per_sec 70 :=
  ⟨calibration_table_ascending, calibration_table_flows_nonneg, by norm_num,
    by norm_num [calibration_table],
    by norm_num [get_flow_rate_ml_per_sec, flow_rate_of_table, calibration_table, scan_table,
      interpolate, abs_lt],
    by norm_num [get_flow_rate_ml_per_sec, flow_rate_of_table, calibration_table, scan_table,
      interpolate, abs_lt],
    flow_rate_monotone calibration_table 30 70 calibration_table_ascending
      calibration_table_flows_nonneg (by norm_num) (by norm_num [calibration_table])⟩

/-- C20 (counterexample): at p = 2.625 the exact value 2.625 / 100 * 1200 is
31.5, which rounds half up to 32, but the binary32 quotient 2.625 / 100 lies
below 0.02625 and pump_activate stores 31; at p = 5592405 / 2^27 (the binary32
number just below 1/24) exact rounding gives 0 and pump_activate stores 1 and
marks the pump active. -/
theorem compare_value_differs_near_tie :
    new_cc_value (21 / 8) = 31 ∧
    min ⌊max (0 : ℚ) (min (21 / 8) 100) / 100 * ((PUMP_PWM_PERIOD + 1 : ℕ) : ℚ) + 1 / 2⌋₊
      PUMP_PWM_PERIOD = 32 ∧
    (pump_activate (21 / 8) 0 0 (pump_init pump_boot)).current_pump_cc_value = 31 ∧
    new_cc_value (5592405 / 134217728) = 1 ∧
    min ⌊max (0 : ℚ) (min (5592405 / 134217728) 100) / 100
        * ((PUMP_PWM_PERIOD + 1 : ℕ) : ℚ) + 1 / 2⌋₊ PUMP_PWM_PERIOD = 0 ∧
    (pump_activate (5592405 / 134217728) 0 0 (pump_init pump_boot)).pump_is_active = true := by
  have hper : ((PUMP_PWM_PERIOD + 1 : ℕ) : ℚ) = 1200 := by norm_num [PUMP_PWM_PERIOD]
  refine ⟨new_cc_value_tie_below, ?_, ?_, new_cc_value_below_half_count, ?_, ?_⟩
  · rw [hper, min_eq_left (show (21 / 8 : ℚ) ≤ 100 by norm_num),
      max_eq_right (show (0 : ℚ) ≤ 21 / 8 by norm_num)]
    have h : ⌊(21 / 8 : ℚ) / 100 * 1200 + 1 / 2⌋₊ = 32 := by
      rw [Nat.floor_eq_iff (by norm_num)]
      norm_num
    rw [h]
    rfl
  · rw [(pump_activate_cc (21 / 8) 0 0 (pump_init pump_boot)).1]
    exact new_cc_value_tie_below
  · rw [hper, min_eq_left (show (5592405 / 134217728 : ℚ) ≤ 100 by norm_num),
      max_eq_right (show (0 : ℚ) ≤ 5592405 / 134217728 by norm_num)]
    have h : ⌊(5592405 / 134217728 : ℚ) / 100 * 1200 + 1 / 2⌋₊ = 0 := by
      rw [Nat.floor_eq_zero]
      norm_num
    rw [h]
    rfl
  · rw [first_activation, if_pos (by rw [new_cc_value_below_half_count]; decide)]

/-- C20 (amended): for every percentage p the compare value that pump_activate
stores and writes to the register is the integer part of the binary32 value of
(clamp(p, 0, 100) / 100) * (PERIOD + 1) + 0.5, every operation rounded to
binary32, cut down to PERIOD = 1199.  It differs by at most one from the exact
rounding half up cut down to PERIOD, and equals it when the exact value plus
1/2 is at least 1/1000 away from every whole number.  It is at most PERIOD, 0
for p <= 0 and PERIOD for p >= 100, and pump_activate(p) is pump_activate of p
clamped to [0, 100]. -/
theorem compare_value_binary32_rounding (p : ℚ) (tick_stop tick_start : Nat)
    (s : PumpModule) :
    PUMP_PWM_PERIOD = 1199 ∧
    new_cc_value p =
      min ⌊binary32 (binary32 (binary32 (max 0 (min p 100) / 100)
        * ((PUMP_PWM_PERIOD + 1 : ℕ) : ℚ)) + 1 / 2)⌋₊ PUMP_PWM_PERIOD ∧
    (new_cc_value p
        ≤ min ⌊max 0 (min p 100) / 100 * ((PUMP_PWM_PERIOD + 1 : ℕ) : ℚ) + 1 / 2⌋₊
          PUMP_PWM_PERIOD + 1 ∧
      min ⌊max 0 (min p 100) / 100 * ((PUMP_PWM_PERIOD + 1 : ℕ) : ℚ) + 1 / 2⌋₊
          PUMP_PWM_PERIOD ≤ new_cc_value p + 1) ∧
    (∀ n : ℕ,
      (n : ℚ) + 1 / 1000
        ≤ max 0 (min p 100) / 100 * ((PUMP_PWM_PERIOD + 1 : ℕ) : ℚ) + 1 / 2 →
      max 0 (min p 100) / 100 * ((PUMP_PWM_PERIOD + 1 : ℕ) : ℚ) + 1 / 2
        ≤ (n : ℚ) + 999 / 1000 →
      new_cc_value p
        = min ⌊max 0 (min p 100) / 100 * ((PUMP_PWM_PERIOD + 1 : ℕ) : ℚ) + 1 / 2⌋₊
          PUMP_PWM_PERIOD) ∧
    new_cc_value p ≤ PUMP_PWM_PERIOD ∧
    (p ≤ 0 → new_cc_value p = 0) ∧
    (100 ≤ p → new_cc_value p = PUMP_PWM_PERIOD) ∧
    (pump_activate p tick_stop tick_start s).current_pump_cc_value = new_cc_value p ∧
    (pump_activate p tick_stop tick_start s).tcc_compare_value = new_cc_value p ∧
    pump_activate p tick_stop tick_start s
      = pump_activate (max 0 (min p 100)) tick_stop tick_start s := by
  have hper : ((PUMP_PWM_PERIOD + 1 : ℕ) : ℚ) = 1200 := by norm_num [PUMP_PWM_PERIOD]
  have hP : PUMP_PWM_PERIOD = 1199 := rfl
  rw [hper, hP]
  refine ⟨rfl, new_cc_value_floor p, new_cc_value_within_one p, ?_, new_cc_value_le p,
    new_cc_value_of_nonpos p, new_cc_value_of_ge_full p,
    (pump_activate_cc p tick_stop tick_start s).1,
    (pump_activate_cc p tick_stop tick_start s).2, ?_⟩
  · intro n hlo hhi
    obtain ⟨h1, h2⟩ := new_cc_value_away_from_tie p n hlo hhi
    rw [h1, h2]
  · unfold pump_activate
    simp only [new_cc_value_clamp]

/-- C20 (amended) at p = 50: the exact value plus 1/2 is 600.5, away from a
tie, and the stored compare value is 600. -/
theorem compare_value_binary32_rounding_witness :
    ((600 : ℕ) : ℚ) + 1 / 1000
      ≤ max 0 (min 50 100) / 100 * ((PUMP_PWM_PERIOD + 1 : ℕ) : ℚ) + 1 / 2 ∧
    max (0 : ℚ) (min 50 100) / 100 * ((PUMP_PWM_PERIOD + 1 : ℕ) : ℚ) + 1 / 2
      ≤ ((600 : ℕ) : ℚ) + 999 / 1000 ∧
    new_cc_value 50
      = min ⌊max (0 : ℚ) (min 50 100) / 100 * ((PUMP_PWM_PERIOD + 1 : ℕ) : ℚ) + 1 / 2⌋₊
        PUMP_PWM_PERIOD :=
  have hlo : ((600 : ℕ) : ℚ) + 1 / 1000
      ≤ max 0 (min 50 100) / 100 * ((PUMP_PWM_PERIOD + 1 : ℕ) : ℚ) + 1 / 2 := by
    norm_num [PUMP_PWM_PERIOD]
  have hhi : max (0 : ℚ) (min 50 100) / 100 * ((PUMP_PWM_PERIOD + 1 : ℕ) : ℚ) + 1 / 2
      ≤ ((600 : ℕ) : ℚ) + 999 / 1000 := by
    norm_num [PUMP_PWM_PERIOD]
  ⟨hlo, hhi, (compare_value_binary32_rounding 50 0 0 pump_boot).2.2.2.1 600 hlo hhi⟩

/-- C21: step function of the two wait states, in every state the engine
reaches after calibration_init and any sequence of ticks.  In DryWait (resp.
WetWait) the tick advances to WetWait (resp. Complete) exactly when the button
reads pressed at the start of the tick and not pressed at the second read.  When
it advances it stores the ADC sample of the tick in dry (resp. wet), leaves the
rest of the context as it was, sets the prompt flag to Released and returns
false.  Otherwise the context (state, dry, wet, attempts), the completion flag
and the flash are unchanged and it returns false. -/
theorem wait_state_step {Flash : Type} (nvm : NvmModel Flash) (boot : CalibrationModule)
    (flash0 : Flash) (ticks : List TickInput) (inp : TickInput) :
    (let m := (run_ticks nvm ticks (calibration_init nvm boot flash0) flash0).2.1
     let flash := (run_ticks nvm ticks (calibration_init nvm boot flash0) flash0).2.2
     let r := calibration_process nvm inp m flash
     let edge := inp.button_first = true ∧ inp.button_second = false
     (m.calibration_ctx.current_state = .CALIBRATION_DRY_WAIT →
       (r.module.calibration_ctx.current_state = .CALIBRATION_WET_WAIT ↔ edge) ∧
       (edge →
         r.module.calibration_ctx =
           { m.calibration_ctx with
             dry_calibration_value := inp.adc
             current_state := .CALIBRATION_WET_WAIT } ∧
         r.module.calibration_complete = m.calibration_complete ∧
         r.module.current_button_state = .BUTTON_RELEASED ∧
         r.flash = flash ∧ r.ret = false) ∧
       (¬ edge →
         r.module.calibration_ctx = m.calibration_ctx ∧
         r.module.calibration_complete = m.calibration_complete ∧
         r.flash = flash ∧ r.ret = false)) ∧
     (m.calibration_ctx.current_state = .CALIBRATION_WET_WAIT →
       (r.module.calibration_ctx.current_state = .CALIBRATION_COMPLETE ↔ edge) ∧
       (edge →
         r.module.calibration_ctx =
           { m.calibration_ctx with
             wet_calibration_value := inp.adc
             current_state := .CALIBRATION_COMPLETE } ∧
         r.module.calibration_complete = m.calibration_complete ∧
         r.module.current_button_state = .BUTTON_RELEASED ∧
         r.flash = flash ∧ r.ret = false) ∧
       (¬ edge →
         r.module.calibration_ctx = m.calibration_ctx ∧
         r.module.calibration_complete = m.calibration_complete ∧
         r.flash = flash ∧ r.ret = false))) := by
  intro m flash r edge
  have hcons : EngineConsistent m :=
    (run_ticks_consistent nvm ticks _ flash0 (calibration_init_consistent nvm boot flash0)).1
  constructor
  · intro hstate
    have hstep : r = _ := dry_wait_step nvm inp m flash hstate hcons.1
    by_cases hedge : edge
    · rw [hstep, if_pos hedge]
      exact ⟨⟨fun _ => hedge, fun _ => rfl⟩, fun _ => ⟨rfl, rfl, rfl, rfl, rfl⟩,
        fun hne => absurd hedge hne⟩
    · rw [hstep, if_neg hedge]
      refine ⟨⟨fun h => ?_, fun h => absurd h hedge⟩, fun h => absurd h hedge,
        fun _ => ⟨rfl, rfl, rfl, rfl⟩⟩
      have h' : m.calibration_ctx.current_state = .CALIBRATION_WET_WAIT := h
      rw [hstate] at h'
      cases h'
  · intro hstate
    have hstep : r = _ := wet_wait_step nvm inp m flash hstate hcons.1
    by_cases hedge : edge
    · rw [hstep, if_pos hedge]
      exact ⟨⟨fun _ => hedge, fun _ => rfl⟩, fun _ => ⟨rfl, rfl, rfl, rfl, rfl⟩,
        fun hne => absurd hedge hne⟩
    · rw [hstep, if_neg hedge]
      refine ⟨⟨fun h => ?_, fun h => absurd h hedge⟩, fun h => absurd h hedge,
        fun _ => ⟨rfl, rfl, rfl, rfl⟩⟩
      have h' : m.calibration_ctx.current_state = .CALIBRATION_COMPLETE := h
      rw [hstate] at h'
      cases h'

/-- C21 on erased storage: the engine is in DryWait straight after
calibration_init, and a tick that reads pressed, then not pressed, moves it to
WetWait. -/
theorem wait_state_step_witness :
    (run_ticks working_nvm [] (calibration_init working_nvm boot_module erased_record)
      erased_record).2.1.calibration_ctx.current_state = .CALIBRATION_DRY_WAIT ∧
    (calibration_process working_nvm ⟨3800, true, false⟩
      (run_ticks working_nvm [] (calibration_init working_nvm boot_module erased_record)
        erased_record).2.1
      (run_ticks working_nvm [] (calibration_init working_nvm boot_module erased_record)
        erased_record).2.2).module.calibration_ctx.current_state = .CALIBRATION_WET_WAIT :=
  ⟨by decide,
    ((wait_state_step working_nvm boot_module erased_record [] ⟨3800, true, false⟩).1
      (by decide)).1.mpr ⟨rfl, rfl⟩⟩

/-- C22 (counterexample): storage that holds the magic with dry = 1200 and
wet = 3800; straight after calibration_init (no tick yet)
get_calibration_status is true and get_calibration_values reports (1200, 3800),
where wet < dry fails. -/
theorem loaded_record_not_validated :
    (let flash : FlashRecord :=
      { dry_value := 1200, wet_value := 3800, magic_number := CALIBRATION_MAGIC_NUMBER }
     let m := (run_ticks working_nvm [] (calibration_init working_nvm boot_module flash)
       flash).2.1
     get_calibration_status m = true ∧
     m.calibration_ctx.current_state = .CALIBRATION_COMPLETE ∧
     get_calibration_values m = (1200, 3800) ∧
     ¬ ((get_calibration_values m).2 < (get_calibration_values m).1)) := by
  decide

/-- C22 (amended): for every initial storage content and every sequence of
ticks after calibration_init, whenever get_calibration_status is true the state
is Complete; the endpoints of get_calibration_values satisfy wet < dry as well
once a tick has run, and before the first tick when the storage held no record
with the magic or held one with wet < dry. -/
theorem status_implies_complete {Flash : Type} (nvm : NvmModel Flash)
    (boot : CalibrationModule) (flash0 : Flash) (ticks : List TickInput) :
    (let stored := nvm.memcpy_record CALIBRATION_FLASH_ADDRESS flash0
     let m := (run_ticks nvm ticks (calibration_init nvm boot flash0) flash0).2.1
     (get_calibration_status m = true →
       m.calibration_ctx.current_state = .CALIBRATION_COMPLETE) ∧
     (ticks ≠ [] ∨ stored.magic_number ≠ CALIBRATION_MAGIC_NUMBER ∨
         stored.wet_value < stored.dry_value →
       get_calibration_status m = true →
       m.calibration_ctx.current_state = .CALIBRATION_COMPLETE ∧
       (get_calibration_values m).2 < (get_calibration_values m).1)) := by
  intro stored m
  have hrun := run_ticks_consistent nvm ticks _ flash0
    (calibration_init_consistent nvm boot flash0)
  refine ⟨hrun.1.2, fun hcase => ?_⟩
  have hvalid : StatusValid m := by
    apply hrun.2
    rcases hcase with hne | hfresh | hlt
    · exact Or.inr hne
    · left
      rw [calibration_init_fresh nvm boot flash0 hfresh]
      simp [StatusValid]
    · left
      by_cases hmagic : stored.magic_number = CALIBRATION_MAGIC_NUMBER
      · rw [calibration_init_stored nvm boot flash0 hmagic]
        intro _
        exact ⟨rfl, hlt⟩
      · rw [calibration_init_fresh nvm boot flash0 hmagic]
        simp [StatusValid]
  exact hvalid

/-- C22 (amended) on storage holding the magic with dry = 1200 and wet = 3800:
after one tick get_calibration_status is false; with dry = 3800 and wet = 1200
it is true after one tick and wet < dry holds. -/
theorem status_implies_complete_witness :
    get_calibration_status
      (run_ticks working_nvm [⟨0, false, false⟩]
        (calibration_init working_nvm boot_module
          { dry_value := 1200, wet_value := 3800, magic_number := CALIBRATION_MAGIC_NUMBER })
        { dry_value := 1200, wet_value := 3800,
          magic_number := CALIBRATION_MAGIC_NUMBER }).2.1 = false ∧
    get_calibration_status
      (run_ticks working_nvm [⟨0, false, false⟩]
        (calibration_init working_nvm boot_module
          { dry_value := 3800, wet_value := 1200, magic_number := CALIBRATION_MAGIC_NUMBER })
        { dry_value := 3800, wet_value := 1200,
          magic_number := CALIBRATION_MAGIC_NUMBER }).2.1 = true ∧
    (get_calibration_values
      (run_ticks working_nvm [⟨0, false, false⟩]
        (calibration_init working_nvm boot_module
          { dry_value := 3800, wet_value := 1200, magic_number := CALIBRATION_MAGIC_NUMBER })
        { dry_value := 3800, wet_value := 1200,
          magic_number := CALIBRATION_MAGIC_NUMBER }).2.1).2
      < (get_calibration_values
      (run_ticks working_nvm [⟨0, false, false⟩]
        (calibration_init working_nvm boot_module
          { dry_value := 3800, wet_value := 1200, magic_number := CALIBRATION_MAGIC_NUMBER })
        { dry_value := 3800, wet_value := 1200,
          magic_number := CALIBRATION_MAGIC_NUMBER }).2.1).1 :=
  ⟨by decide, by decide,
    ((status_implies_complete working_nvm boot_module
      { dry_value := 3800, wet_value := 1200, magic_number := CALIBRATION_MAGIC_NUMBER }
      [⟨0, false, false⟩]).2 (Or.inl (by simp)) (by decide)).2⟩

/-- C23: for dry in the u16 range (so for all u16 raw, dry, wet),
moisture_sensor_calibrate never divides by zero.  The interpolation branch is
taken only when wet < raw < dry; there the divisor wet - dry is below zero and
the int division is defined.  When wet >= dry the branch is not taken: the
result is 0 if raw >= dry and 100 otherwise.  The function always returns a
value. -/
theorem calibrate_never_divides_by_zero (context : MoistureSensorContext) (dry wet : Nat)
    (hdry : dry < 65536) :
    (¬ context.moisture_raw_value ≥ dry → ¬ context.moisture_raw_value ≤ wet →
      wet < context.moisture_raw_value ∧ context.moisture_raw_value < dry ∧
      int_sub (wet : Int) (dry : Int) = some ((wet : Int) - (dry : Int)) ∧
      (wet : Int) - (dry : Int) < 0 ∧
      int_div (((context.moisture_raw_value : Int) - (dry : Int)) * 100)
          ((wet : Int) - (dry : Int))
        = some (Int.tdiv (((context.moisture_raw_value : Int) - (dry : Int)) * 100)
            ((wet : Int) - (dry : Int)))) ∧
    (dry ≤ wet → dry ≤ context.moisture_raw_value →
      moisture_sensor_calibrate context dry wet
        = some { context with moisture_percentage := 0 }) ∧
    (dry ≤ wet → context.moisture_raw_value < dry →
      moisture_sensor_calibrate context dry wet
        = some { context with moisture_percentage := 100 }) ∧
    moisture_sensor_calibrate context dry wet ≠ none := by
  refine ⟨fun hge hle => ?_, fun _ hraw => ?_, fun hwd hraw => ?_, ?_⟩
  · have hlo : wet < context.moisture_raw_value := by omega
    have hhi : context.moisture_raw_value < dry := by omega
    have hq := interpolation_quotient context.moisture_raw_value dry wet hlo hhi
    have hb := interpolation_bound context.moisture_raw_value dry wet hlo hhi
    refine ⟨hlo, hhi, ?_, by omega, ?_⟩
    · simp only [int_sub, in_int_range]
      rw [if_pos]
      simp only [decide_eq_true_eq]
      omega
    · simp only [int_div, in_int_range]
      rw [if_neg (by omega), if_pos]
      rw [hq]
      simp only [decide_eq_true_eq]
      generalize (dry - context.moisture_raw_value) * 100 / (dry - wet) = q at hb
      omega
  · simp only [moisture_sensor_calibrate]
    rw [if_pos hraw]
  · simp only [moisture_sensor_calibrate]
    rw [if_neg (by omega), if_pos (by omega)]
  · by_cases hge : dry ≤ context.moisture_raw_value
    · simp only [moisture_sensor_calibrate]
      rw [if_pos hge]
      simp
    · by_cases hle : context.moisture_raw_value ≤ wet
      · simp only [moisture_sensor_calibrate]
        rw [if_neg hge, if_pos hle]
        simp
      · rw [calibrate_interpolation context dry wet hdry (by omega) (by omega)]
        simp

/-- C23 at raw = 1000 with dry = 1200 and wet = 3800 (wet >= dry): the result
is 100. -/
theorem calibrate_never_divides_by_zero_witness :
    1200 < 65536 ∧
    moisture_sensor_calibrate (sample_context 1000) 1200 3800
      = some { sample_context 1000 with moisture_percentage := 100 } ∧
    moisture_sensor_calibrate (sample_context 1000) 1200 3800 ≠ none :=
  ⟨by decide,
    (calibrate_never_divides_by_zero (sample_context 1000) 1200 3800 (by decide)).2.2.1
      (by decide) (by decide),
    (calibrate_never_divides_by_zero (sample_context 1000) 1200 3800 (by decide)).2.2.2⟩

end Irrigation
